import Mathlib

/-!
# SurfaceInteropCUDA: a shallow embedding

The C++ translation unit `src/codec/video/SurfaceInteropCUDA.cpp` is embedded as
pure functions over explicit state.  Every function that talks to the CUDA
driver, Direct3D 9, EGL or GL takes a record with the outcome of each driver
call it may issue (any outcome is allowed: the theorems quantify over all such
records) and returns, next to its C++ result and the new object state, the
list of driver calls it issued, in program order.

Conventions
* pointer-like handles (`CUcontext`, `CUstream`, `CUgraphicsResource`,
  `IDirect3DSurface9*`, `void*`, ...) are natural numbers, `0` being `NULL`;
* C `int` values are integers; `size_t` fields are naturals, an `int` stored
  into one goes through `toSizeT` (64 bit `size_t`);
* a driver call that reports an error does not write its out-parameter;
* the macros `CUDA_ENSURE`, `CUDA_WARN` and `DX_ENSURE` come from headers outside
  this translation unit ("check return code, log, return default"):
  `CUDA_ENSURE(f, v)`, `DX_ENSURE(f, v)` and `EGL_ENSURE(f, v)` evaluate `f` once
  and `return v` from the enclosing function when `f` failed; `CUDA_WARN(f)`
  evaluates `f` once and goes on whatever the outcome; their logging is not
  recorded, nor is `qDebug`;
* `res[plane]` is indexed by `Fin 2` (`Q_ASSERT(plane < 2)`).
-/

namespace QtAV
namespace cuda

/-! ## Data model -/

/-- A pointer-like driver handle; `0` is `NULL`. -/
abbrev Handle := Nat

/-- An OpenGL texture name. -/
abbrev GLuint := Nat

/-- A device address. -/
abbrev CUdeviceptr := Nat

/-- The C constant `FALSE`. -/
def FALSE : Int := 0

/-- Conversion of a C `int` to `size_t` (64 bit, modular). -/
def toSizeT (x : Int) : Nat := (x % 2 ^ 64).toNat

/-- Decoder post-processing parameters; the code only stores and forwards them. -/
structure CUVIDPROCPARAMS where
  id : Nat
deriving DecidableEq

/-- A pixel format descriptor; the code only forwards and compares it. -/
structure VideoFormat where
  id : Nat
deriving DecidableEq

/-- The per-plane record `TexRes` (fields as used in the translation unit). -/
structure TexRes where
  texture : GLuint
  w : Int
  h : Int
  H : Int
  cuRes : Handle
  stream : Handle
deriving DecidableEq

/-- The value left by `memset(res, 0, sizeof(res))`. -/
def TexRes.zero : TexRes :=
  { texture := 0, w := 0, h := 0, H := 0, cuRes := 0, stream := 0 }

/-- Data members of `InteropResource`; `res0`, `res1` are `res[0]`, `res[1]`. -/
structure InteropResource where
  dev : Int
  ctx : Handle
  dec : Handle
  lock : Handle
  res0 : TexRes
  res1 : TexRes
deriving DecidableEq

/-- The constructor `InteropResource(d, decoder, declock)`. -/
def InteropResource.new (d : Int) (decoder declock : Handle) : InteropResource :=
  { dev := d, ctx := 0, dec := decoder, lock := declock,
    res0 := TexRes.zero, res1 := TexRes.zero }

/-- The element `res[plane]`. -/
def InteropResource.getRes (s : InteropResource) (plane : Fin 2) : TexRes :=
  if plane = 0 then s.res0 else s.res1

/-- Assignment to `res[plane]`. -/
def InteropResource.setRes (s : InteropResource) (plane : Fin 2) (r : TexRes) :
    InteropResource :=
  if plane = 0 then { s with res0 := r } else { s with res1 := r }

/-- `CU_MEMORYTYPE_DEVICE`. -/
def CU_MEMORYTYPE_DEVICE : Nat := 2

/-- `CU_MEMORYTYPE_ARRAY`. -/
def CU_MEMORYTYPE_ARRAY : Nat := 3

/-- The 2D copy descriptor `CUDA_MEMCPY2D`. -/
structure CUDA_MEMCPY2D where
  srcXInBytes : Nat
  srcY : Nat
  srcMemoryType : Nat
  srcHost : Nat
  srcDevice : CUdeviceptr
  srcArray : Handle
  srcPitch : Nat
  dstXInBytes : Nat
  dstY : Nat
  dstMemoryType : Nat
  dstHost : Nat
  dstDevice : CUdeviceptr
  dstArray : Handle
  dstPitch : Nat
  WidthInBytes : Nat
  Height : Nat
deriving DecidableEq

/-- The value left by `memset(&cu2d, 0, sizeof(cu2d))`. -/
def CUDA_MEMCPY2D.zero : CUDA_MEMCPY2D :=
  { srcXInBytes := 0, srcY := 0, srcMemoryType := 0, srcHost := 0, srcDevice := 0,
    srcArray := 0, srcPitch := 0, dstXInBytes := 0, dstY := 0, dstMemoryType := 0,
    dstHost := 0, dstDevice := 0, dstArray := 0, dstPitch := 0, WidthInBytes := 0,
    Height := 0 }

/-- The driver calls issued by the translation unit, with the arguments that
matter to the properties proved below. -/
inductive Call where
  | cuvidCtxLock (lock : Handle)
  | cuvidCtxUnlock (lock : Handle)
  | cuCtxCreate (dev : Int)
  | cuD3D9CtxCreate (device9 : Handle)
  | cuStreamCreate
  | cuStreamDestroy (stream : Handle)
  | cuCtxDestroy (ctx : Handle)
  | cuCtxPopCurrent
  | cuGraphicsUnregisterResource (r : Handle)
  | cuGraphicsGLRegisterImage (tex : GLuint)
  | cuGraphicsD3D9RegisterResource (texture9 : Handle)
  | cuvidMapVideoFrame (dec : Handle) (picIndex : Int) (param : CUVIDPROCPARAMS)
  | cuvidUnmapVideoFrame (dec : Handle) (devptr : CUdeviceptr)
  | cuGraphicsMapResources (r : Handle)
  | cuGraphicsSubResourceGetMappedArray (r : Handle)
  | cuMemcpy2DAsync (cu2d : CUDA_MEMCPY2D) (stream : Handle)
  | cuStreamSynchronize (stream : Handle)
  | cuGraphicsUnmapResources (r : Handle)
  | cuMemAllocHost (size : Nat)
  | cuMemcpyDtoH (host : Nat) (devptr : CUdeviceptr) (size : Nat)
  | cuMemFreeHost (host : Nat)
  | LoadLibrary
  | CreateDevice9Ex (dll9 : Handle)
  | CreateDevice9 (dll9 : Handle)
  | CreateQuery (device9 : Handle)
  | Issue (query9 : Handle)
  | GetData (query9 : Handle)
  | Sleep (ms : Nat)
  | CreateTexture (device9 : Handle) (w : Int) (h : Int) (renderTarget : Bool)
      (alpha : Bool)
  | GetSurfaceLevel (texture9 : Handle)
  | GetDesc (surface : Handle)
  | StretchRect (device9 : Handle) (src : Handle) (right : Int) (bottom : Int)
      (dst : Handle)
  | Release (obj : Handle)
  | eglGetCurrentDisplay
  | nativeResourceForContext
  | eglQueryContext (dpy : Handle)
  | eglGetConfigs (dpy : Handle)
  | eglGetConfigAttrib (dpy : Handle) (cfg : Handle)
  | eglQueryString (dpy : Handle)
  | eglCreatePbufferSurface (dpy : Handle) (cfg : Handle) (w : Int) (h : Int)
      (alpha : Bool)
  | eglGetProcAddress
  | eglQuerySurfacePointerANGLE (dpy : Handle) (surface : Handle)
  | eglCreatePbufferFromClientBuffer (dpy : Handle) (share : Handle) (cfg : Handle)
      (w : Int) (h : Int) (alpha : Bool)
  | eglReleaseTexImage (dpy : Handle) (surface : Handle)
  | eglDestroySurface (dpy : Handle) (surface : Handle)
  | eglBindTexImage (dpy : Handle) (surface : Handle)
  | glBindTexture (tex : GLuint)
  | qWarning
deriving DecidableEq

/-- Outcomes of the CUDA driver calls one member-function call may issue.
`none` / `false` is an error code, `some v` / `true` is `CUDA_SUCCESS` (with the
value written to the out-parameter). -/
structure CudaBackend where
  cuCtxCreate : Option Handle
  cuD3D9CtxCreate : Option (Handle × Int)
  cuStreamCreate0 : Option Handle
  cuStreamCreate1 : Option Handle
  cuCtxPopCurrent : Option Handle
  cuGraphicsUnregisterResource : Bool
  cuGraphicsGLRegisterImage : Option Handle
  cuGraphicsD3D9RegisterResource : Option Handle
  cuvidMapVideoFrame : Option (CUdeviceptr × Nat)
  cuGraphicsMapResources : Bool
  cuGraphicsSubResourceGetMappedArray : Option Handle
  cuMemcpy2DAsync : Bool
  cuMemcpy2DAsyncUV : Bool
  cuStreamSynchronize : Bool
  cuGraphicsUnmapResources : Bool
deriving DecidableEq

/-- Modelled from the spec: the scoped guard `AutoCtxLock`, declared in a header
outside this translation unit, which "acquires the context lock for the call's
duration"; this is the call made when the guard is constructed. -/
def AutoCtxLock.acquire (lock : Handle) : List Call := [Call.cuvidCtxLock lock]

/-- Modelled from the spec: the scoped guard `AutoCtxLock`; this is the call
made when the guard goes out of scope, on every return path. -/
def AutoCtxLock.release (lock : Handle) : List Call := [Call.cuvidCtxUnlock lock]

/-- Modelled from the spec: the scoped guard `CUVIDAutoUnmapper`, declared in a
header outside this translation unit, which unmaps the decoder buffer
"via scoped release even on error"; this is the call made when the guard goes
out of scope, on every return path after the decoder frame was mapped. -/
def CUVIDAutoUnmapper.release (dec : Handle) (devptr : CUdeviceptr) : List Call :=
  [Call.cuvidUnmapVideoFrame dec devptr]

/-! ## `InteropResource` (teardown and the host-memory path) -/

/-- The destructor `InteropResource::~InteropResource()`: the driver calls it
issues, each under `CUDA_WARN`.  The context is not destroyed: the call
`cuCtxDestroy(ctx)` is commented out in the source. -/
def InteropResource.destructor (s : InteropResource) : List Call :=
  (if s.res0.cuRes ≠ 0 then [Call.cuGraphicsUnregisterResource s.res0.cuRes] else []) ++
  (if s.res1.cuRes ≠ 0 then [Call.cuGraphicsUnregisterResource s.res1.cuRes] else []) ++
  (if s.res0.stream ≠ 0 then [Call.cuStreamDestroy s.res0.stream] else []) ++
  (if s.res1.stream ≠ 0 then [Call.cuStreamDestroy s.res1.stream] else [])

/-- Outcomes of the host-memory driver calls of `mapToHost`: the page-locked
buffer handed out by `cuMemAllocHost` (`none` on error) and whether
`cuMemcpyDtoH` succeeds. -/
structure HostBackend where
  cuMemAllocHost : Option Nat
  cuMemcpyDtoH : Bool
deriving DecidableEq

/-- Conversion of a C `int` to `unsigned int` (32 bit, modular). -/
def toUInt (x : Int) : Nat := (x % 2 ^ 32).toNat

/-- The cast `(int)pitch` of an `unsigned int`. -/
def toInt (x : Nat) : Int := ((x + 2 ^ 31) % 2 ^ 32 : Nat) - 2 ^ 31

/-- The frame value `mapToHost` stores through `handle`: an NV12 frame of
`width` by `height` whose two planes were read at `bits0` and `bits1` with the
given strides, cloned (`converted = false`) or converted to `format`
(`converted = true`).  Timestamp and aspect ratio are those already stored
through `handle`. -/
structure VideoFrame where
  width : Int
  height : Int
  format : VideoFormat
  bits0 : Nat
  bits1 : Nat
  bytesPerLine0 : Int
  bytesPerLine1 : Int
  converted : Bool
deriving DecidableEq

/-- The expression `pitch*coded_height` of `mapToHost`, in `unsigned int`
arithmetic. -/
def InteropResource.mapToHost.planeSize (pitch : Nat) (coded_height : Int) : Nat :=
  pitch * toUInt coded_height % 2 ^ 32

/-- The constant `host_size = pitch*coded_height*3/2` of `mapToHost`, in
`unsigned int` arithmetic. -/
def InteropResource.mapToHost.host_size (pitch : Nat) (coded_height : Int) : Nat :=
  InteropResource.mapToHost.planeSize pitch coded_height * 3 % 2 ^ 32 / 2

/-- The part of `InteropResource::mapToHost` between the construction of the
decoder-frame unmapper and its destruction: allocate the host buffer, copy the
device buffer into it, build the frame and store it through `handle`, free the
host buffer.  The result is the returned pointer, the frame stored, the calls.
`Format_NV12` is the pixel format constant of that name, declared outside this
translation unit. -/
def InteropResource.mapToHost.body (m : HostBackend) (Format_NV12 format : VideoFormat)
    (handle : Nat) (devptr : CUdeviceptr) (pitch : Nat) (width height coded_height : Int) :
    Nat × Option VideoFrame × List Call :=
  let host_size := InteropResource.mapToHost.host_size pitch coded_height
  match m.cuMemAllocHost with
  | none => (0, none, [Call.cuMemAllocHost host_size])
  | some host_data =>
    if m.cuMemcpyDtoH then
      (handle,
        some { width := width, height := height, format := format, bits0 := host_data,
               bits1 := host_data + InteropResource.mapToHost.planeSize pitch coded_height,
               bytesPerLine0 := toInt pitch, bytesPerLine1 := toInt pitch,
               converted := decide (format ≠ Format_NV12) },
        [Call.cuMemAllocHost host_size, Call.cuMemcpyDtoH host_data devptr host_size,
         Call.cuMemFreeHost host_data])
    else
      (0, none,
        [Call.cuMemAllocHost host_size, Call.cuMemcpyDtoH host_data devptr host_size])

/-- `InteropResource::mapToHost(format, handle, picIndex, param, width, height,
coded_height)`; the guards `locker` and `unmapper` are released in reverse
order of construction on every return path.  The object is not changed. -/
def InteropResource.mapToHost (s : InteropResource) (b : CudaBackend) (m : HostBackend)
    (Format_NV12 format : VideoFormat) (handle : Nat) (picIndex : Int)
    (param : CUVIDPROCPARAMS) (width height coded_height : Int) :
    Nat × Option VideoFrame × List Call :=
  match b.cuvidMapVideoFrame with
  | none => (0, none, AutoCtxLock.acquire s.lock ++
      [Call.cuvidMapVideoFrame s.dec picIndex param] ++ AutoCtxLock.release s.lock)
  | some (devptr, pitch) =>
    match InteropResource.mapToHost.body m Format_NV12 format handle devptr pitch
        width height coded_height with
    | (r, f, t) => (r, f, AutoCtxLock.acquire s.lock ++
        [Call.cuvidMapVideoFrame s.dec picIndex param] ++ t ++
        CUVIDAutoUnmapper.release s.dec devptr ++ AutoCtxLock.release s.lock)

/-! ## `GLInteropResource` (the direct path) -/

namespace GLInteropResource

/-- The block `if (!ctx) { ... }` of `ensureResource`: context creation, the two
stream creations (warn only) and the context pop. -/
def ensureResource.createContext (s : InteropResource) (b : CudaBackend) :
    Bool × InteropResource × List Call :=
  if s.ctx = 0 then
    match b.cuCtxCreate with
    | none => (false, s, [Call.cuCtxCreate s.dev])
    | some c =>
      let s1 := { s with ctx := c }
      let s2 := match b.cuStreamCreate0 with
        | none => s1
        | some st => { s1 with res0 := { s1.res0 with stream := st } }
      let s3 := match b.cuStreamCreate1 with
        | none => s2
        | some st => { s2 with res1 := { s2.res1 with stream := st } }
      let t := [Call.cuCtxCreate s.dev, Call.cuStreamCreate, Call.cuStreamCreate,
        Call.cuCtxPopCurrent]
      match b.cuCtxPopCurrent with
      | none => (false, s3, t)
      | some c1 => (true, { s3 with ctx := c1 }, t)
  else (true, s, [])

/-- The tail of `ensureResource`: unregister the stale resource of the plane,
register the texture, record texture and dimensions. -/
def ensureResource.registerTexture (s : InteropResource) (b : CudaBackend)
    (w h ch : Int) (tex : GLuint) (plane : Fin 2) :
    Bool × InteropResource × List Call :=
  let r := s.getRes plane
  if r.cuRes ≠ 0 then
    if b.cuGraphicsUnregisterResource then
      let r1 := { r with cuRes := 0 }
      match b.cuGraphicsGLRegisterImage with
      | none => (false, s.setRes plane r1,
          [Call.cuGraphicsUnregisterResource r.cuRes, Call.cuGraphicsGLRegisterImage tex])
      | some n => (true,
          s.setRes plane { r1 with cuRes := n, texture := tex, w := w, h := h, H := ch },
          [Call.cuGraphicsUnregisterResource r.cuRes, Call.cuGraphicsGLRegisterImage tex])
    else (false, s, [Call.cuGraphicsUnregisterResource r.cuRes])
  else
    match b.cuGraphicsGLRegisterImage with
    | none => (false, s, [Call.cuGraphicsGLRegisterImage tex])
    | some n => (true,
        s.setRes plane { r with cuRes := n, texture := tex, w := w, h := h, H := ch },
        [Call.cuGraphicsGLRegisterImage tex])

/-- `GLInteropResource::ensureResource(w, h, ch, tex, plane)`. -/
def ensureResource (s : InteropResource) (b : CudaBackend) (w h ch : Int)
    (tex : GLuint) (plane : Fin 2) : Bool × InteropResource × List Call :=
  let r := s.getRes plane
  if r.texture = tex ∧ r.w = w ∧ r.h = h ∧ r.H = ch ∧ r.cuRes ≠ 0 then (true, s, [])
  else
    match ensureResource.createContext s b with
    | (false, s1, t1) => (false, s1, t1)
    | (true, s1, t1) =>
      match ensureResource.registerTexture s1 b w h ch tex plane with
      | (ok, s2, t2) => (ok, s2, t1 ++ t2)

/-- The copy descriptor built by `GLInteropResource::map`. -/
def map.cu2d (devptr : CUdeviceptr) (pitch : Nat) (array : Handle) (h ch : Int)
    (plane : Fin 2) : CUDA_MEMCPY2D :=
  let c := { CUDA_MEMCPY2D.zero with
    srcDevice := devptr, srcMemoryType := CU_MEMORYTYPE_DEVICE, srcPitch := pitch,
    dstArray := array, dstMemoryType := CU_MEMORYTYPE_ARRAY, dstPitch := pitch,
    WidthInBytes := pitch, Height := toSizeT h }
  if plane = 1 then { c with srcXInBytes := 0, srcY := toSizeT ch, Height := c.Height / 2 }
  else c

/-- The part of `GLInteropResource::map` between the construction of the
decoder-frame unmapper and its destruction: map the plane's resource, get the
array, copy, synchronize the stream, unmap the resource. -/
def map.body (r : TexRes) (b : CudaBackend) (devptr : CUdeviceptr) (pitch : Nat)
    (h ch : Int) (plane : Fin 2) : Bool × List Call :=
  if b.cuGraphicsMapResources then
    match b.cuGraphicsSubResourceGetMappedArray with
    | none => (false, [Call.cuGraphicsMapResources r.cuRes,
        Call.cuGraphicsSubResourceGetMappedArray r.cuRes])
    | some array =>
      let c := map.cu2d devptr pitch array h ch plane
      if b.cuMemcpy2DAsync then
        (b.cuGraphicsUnmapResources,
          [Call.cuGraphicsMapResources r.cuRes,
           Call.cuGraphicsSubResourceGetMappedArray r.cuRes,
           Call.cuMemcpy2DAsync c r.stream,
           Call.cuStreamSynchronize r.stream,
           Call.cuGraphicsUnmapResources r.cuRes])
      else (false, [Call.cuGraphicsMapResources r.cuRes,
        Call.cuGraphicsSubResourceGetMappedArray r.cuRes,
        Call.cuMemcpy2DAsync c r.stream])
  else (false, [Call.cuGraphicsMapResources r.cuRes])

/-- `GLInteropResource::map(picIndex, param, tex, w, h, ch, plane)`; the
guards `locker` and `unmapper` are released in reverse order of construction
on every return path. -/
def map (s : InteropResource) (b : CudaBackend) (picIndex : Int)
    (param : CUVIDPROCPARAMS) (tex : GLuint) (w h ch : Int) (plane : Fin 2) :
    Bool × InteropResource × List Call :=
  match ensureResource s b w h ch tex plane with
  | (false, s1, t1) =>
    (false, s1, AutoCtxLock.acquire s.lock ++ t1 ++ AutoCtxLock.release s.lock)
  | (true, s1, t1) =>
    match b.cuvidMapVideoFrame with
    | none => (false, s1, AutoCtxLock.acquire s.lock ++ t1 ++
        [Call.cuvidMapVideoFrame s1.dec picIndex param] ++ AutoCtxLock.release s.lock)
    | some (devptr, pitch) =>
      match map.body (s1.getRes plane) b devptr pitch h ch plane with
      | (ok, t2) => (ok, s1, AutoCtxLock.acquire s.lock ++ t1 ++
          [Call.cuvidMapVideoFrame s1.dec picIndex param] ++ t2 ++
          CUVIDAutoUnmapper.release s1.dec devptr ++ AutoCtxLock.release s.lock)

/-- `GLInteropResource::unmap(tex)` with `WORKAROUND_UNMAP_CONTEXT_SWITCH` set:
no driver call, result `true`. -/
def unmap (s : InteropResource) (_tex : GLuint) : Bool × InteropResource × List Call :=
  (true, s, [])

end GLInteropResource

/-! ## `SurfaceInteropCUDA` (the per-frame handle) -/

/-- Modelled from the spec: the surface kinds a caller may request; the
enumeration is declared outside this translation unit.  `GLTextureSurface` is a
renderable texture, `HostMemorySurface` a CPU-readable frame, `Other n` any
other kind. -/
inductive SurfaceType where
  | HostMemorySurface
  | GLTextureSurface
  | Other (n : Nat)
deriving DecidableEq

/-- The two virtual member functions of the shared `InteropResource` that
`SurfaceInteropCUDA::map` dispatches to, as arbitrary result functions of their
arguments. -/
structure ResourceRef where
  map : Int → CUVIDPROCPARAMS → GLuint → Int → Int → Int → Int → Bool
  mapToHost : VideoFormat → Nat → Int → CUVIDPROCPARAMS → Int → Int → Int → Nat

/-- An invocation of a member function of the shared resource. -/
inductive ResourceCall where
  | map (picIndex : Int) (param : CUVIDPROCPARAMS) (tex : GLuint) (w h H : Int)
      (plane : Int)
  | mapToHost (fmt : VideoFormat) (handle : Nat) (picIndex : Int)
      (param : CUVIDPROCPARAMS) (w h H : Int)
deriving DecidableEq

/-- Data members of `SurfaceInteropCUDA`; `m_resource` is the weak reference,
`none` when the resource has expired (`m_resource.isNull()`). -/
structure SurfaceInteropCUDA where
  m_resource : Option ResourceRef
  m_index : Int
  m_param : CUVIDPROCPARAMS
  w : Int
  h : Int
  H : Int

namespace SurfaceInteropCUDA

/-- `SurfaceInteropCUDA::setSurface(picIndex, param, width, height, coded_height)`;
the second component lists the resource invocations (there are none). -/
def setSurface (s : SurfaceInteropCUDA) (picIndex : Int) (param : CUVIDPROCPARAMS)
    (width height coded_height : Int) : SurfaceInteropCUDA × List ResourceCall :=
  ({ s with m_index := picIndex, m_param := param, w := width, h := height,
            H := coded_height }, [])

/-- `SurfaceInteropCUDA::map(type, fmt, handle, plane)`.  `handle` is an address
(`0` is `NULL`), `deref handle` is the `GLuint` stored there; the result is the
returned pointer and the resource invocations made. -/
def map (s : SurfaceInteropCUDA) (deref : Nat → GLuint) (type : SurfaceType)
    (fmt : VideoFormat) (handle : Nat) (plane : Int) : Nat × List ResourceCall :=
  match s.m_resource with
  | none => (0, [])
  | some res =>
    if handle = 0 then (0, [])
    else if s.m_index < 0 then (0, [])
    else if type = SurfaceType.GLTextureSurface then
      if res.map s.m_index s.m_param (deref handle) s.w s.h s.H plane then
        (handle, [ResourceCall.map s.m_index s.m_param (deref handle) s.w s.h s.H plane])
      else
        (0, [ResourceCall.map s.m_index s.m_param (deref handle) s.w s.h s.H plane])
    else if type = SurfaceType.HostMemorySurface then
      (res.mapToHost fmt handle s.m_index s.m_param s.w s.h s.H,
        [ResourceCall.mapToHost fmt handle s.m_index s.m_param s.w s.h s.H])
    else (0, [])

end SurfaceInteropCUDA

/-! ## `EGLInteropResource` (the bridged path) -/

/-- The helper class `EGL`: display and pbuffer surface (`0` is
`EGL_NO_DISPLAY` / `EGL_NO_SURFACE`). -/
structure EGL where
  dpy : Handle
  surface : Handle
deriving DecidableEq

/-- Data members of `EGLInteropResource`. -/
structure EGLInteropResource extends InteropResource where
  egl : EGL
  dll9 : Handle
  d3d9 : Handle
  device9 : Handle
  texture9 : Handle
  surface9 : Handle
  texture9_nv12 : Handle
  surface9_nv12 : Handle
  query9 : Handle
deriving DecidableEq

/-- Outcomes of the Direct3D 9, EGL and platform calls one member-function call
may issue.  A `Handle` result is `0` on failure, an `Option` is `none` on
failure; `StretchRect` is the returned `HRESULT`; `GetData k` is the value
returned by the poll made when the loop counter is `k`. -/
structure D3DBackend where
  guiPrivate : Bool
  LoadLibrary : Handle
  CreateDevice9Ex : Handle × Handle
  CreateDevice9 : Handle × Handle
  CreateQuery : Option Handle
  CreateTextureNV12 : Option Handle
  GetSurfaceLevelNV12 : Option Handle
  nativeDisplay : Handle
  nativeConfig : Handle
  eglGetCurrentDisplay : Handle
  eglQueryContext : Option Int
  eglGetConfigsCount : Bool
  eglGetConfigs : Option (List Handle)
  configId : Handle → Int
  extShareHandleClientBuffer : Bool
  extQuerySurfacePointer : Bool
  hasAlpha : Int
  eglCreatePbufferSurface : Handle
  eglGetProcAddress : Bool
  eglQuerySurfacePointerANGLE : Option Handle
  CreateTexture : Option (Handle × Handle)
  GetSurfaceLevel : Option Handle
  eglCreatePbufferFromClientBuffer : Handle
  StretchRect : Int
  GetData : Nat → Int

namespace EGLInteropResource

/-- The constructor `EGLInteropResource(d, decoder, declock)`. -/
def new (d : Int) (decoder declock : Handle) : EGLInteropResource :=
  { toInteropResource := InteropResource.new d decoder declock,
    egl := { dpy := 0, surface := 0 }, dll9 := 0, d3d9 := 0, device9 := 0,
    texture9 := 0, surface9 := 0, texture9_nv12 := 0, surface9_nv12 := 0, query9 := 0 }

/-- The calls of `SafeRelease(&p)`: `Release` when `p` is not `NULL` (the field is
then set to `NULL` by the caller of this helper). -/
def SafeRelease (p : Handle) : List Call :=
  if p ≠ 0 then [Call.Release p] else []

/-- `EGLInteropResource::ensureD3DDevice()`. -/
def ensureD3DDevice (s : EGLInteropResource) (d : D3DBackend) :
    Bool × EGLInteropResource × List Call :=
  if s.device9 ≠ 0 then (true, s, [])
  else
    let s1 := if s.dll9 = 0 then { s with dll9 := d.LoadLibrary } else s
    let t1 := if s.dll9 = 0 then [Call.LoadLibrary] else []
    if s1.dll9 = 0 then (false, s1, t1 ++ [Call.qWarning])
    else
      let s2 := { s1 with device9 := d.CreateDevice9Ex.1, d3d9 := d.CreateDevice9Ex.2 }
      let t2 := t1 ++ [Call.CreateDevice9Ex s1.dll9]
      let s3 := if s2.device9 = 0 then
          { s2 with device9 := d.CreateDevice9.1, d3d9 := d.CreateDevice9.2 }
        else s2
      let t3 := if s2.device9 = 0 then t2 ++ [Call.qWarning, Call.CreateDevice9 s1.dll9]
        else t2
      if s3.device9 = 0 then (false, s3, t3)
      else
        match d.CreateQuery with
        | none => (false, s3, t3 ++ [Call.CreateQuery s3.device9])
        | some q => (true, { s3 with query9 := q },
            t3 ++ [Call.CreateQuery s3.device9, Call.Issue q])

/-- `EGLInteropResource::releaseEGL()`. -/
def releaseEGL (s : EGLInteropResource) : EGLInteropResource × List Call :=
  if s.egl.surface ≠ 0 then
    ({ s with egl := { s.egl with surface := 0 } },
      [Call.eglReleaseTexImage s.egl.dpy s.egl.surface,
       Call.eglDestroySurface s.egl.dpy s.egl.surface])
  else (s, [])

/-- Sequencing inside a member function: `x` is a step that either returned
`false` from the function (first component `false`) or fell through; in the
latter case the rest `f` of the function runs on the state it left. -/
def andThen {σ τ : Type} (x : Bool × σ × List Call) (f : σ → Bool × τ × List Call)
    (early : σ → τ) : Bool × τ × List Call :=
  match x with
  | (false, s, t) => (false, early s, t)
  | (true, s, t) =>
    match f s with
    | (ok, s1, t1) => (ok, s1, t ++ t1)

/-- The block `if (!ctx) { ... }` of `ensureD3D9CUDA`. -/
def ensureD3D9CUDA.createContext (s : EGLInteropResource) (b : CudaBackend)
    (d : D3DBackend) : Bool × EGLInteropResource × List Call :=
  if s.ctx = 0 then
    andThen (ensureD3DDevice s d) (fun s1 =>
      match b.cuD3D9CtxCreate with
      | none => (false, s1, [Call.cuD3D9CtxCreate s1.device9])
      | some (c, dv) =>
        let s2 := { s1 with ctx := c, dev := dv }
        let s3 := match b.cuStreamCreate0 with
          | none => s2
          | some st => { s2 with res0 := { s2.res0 with stream := st } }
        let s4 := match b.cuStreamCreate1 with
          | none => s3
          | some st => { s3 with res1 := { s3.res1 with stream := st } }
        let t := [Call.cuD3D9CtxCreate s1.device9, Call.cuStreamCreate,
          Call.cuStreamCreate, Call.cuCtxPopCurrent]
        match b.cuCtxPopCurrent with
        | none => (false, s4, t)
        | some c1 => (true, { s4 with ctx := c1 }, t)) id
  else (true, s, [])

/-- The block `if (r.cuRes) { ... }` of `ensureD3D9CUDA`. -/
def ensureD3D9CUDA.unregisterStale (s : EGLInteropResource) (b : CudaBackend) :
    Bool × EGLInteropResource × List Call :=
  if s.res0.cuRes ≠ 0 then
    if b.cuGraphicsUnregisterResource then
      (true, { s with res0 := { s.res0 with cuRes := 0 } },
        [Call.cuGraphicsUnregisterResource s.res0.cuRes])
    else (false, s, [Call.cuGraphicsUnregisterResource s.res0.cuRes])
  else (true, s, [])

/-- The block `if (!surface9_nv12) { ... }` of `ensureD3D9CUDA`: the intermediate
`D3DFMT_L8` texture of `w` by `h*3/2` and its level-0 surface. -/
def ensureD3D9CUDA.createTexture (s : EGLInteropResource) (d : D3DBackend)
    (w h : Int) : Bool × EGLInteropResource × List Call :=
  if s.surface9_nv12 = 0 then
    match d.CreateTextureNV12 with
    | none => (false, s, [Call.CreateTexture s.device9 w (Int.tdiv (h * 3) 2) false false])
    | some t9 =>
      let s1 := { s with texture9_nv12 := t9 }
      match d.GetSurfaceLevelNV12 with
      | none => (false, s1,
          [Call.CreateTexture s.device9 w (Int.tdiv (h * 3) 2) false false,
           Call.GetSurfaceLevel t9])
      | some sf => (true, { s1 with surface9_nv12 := sf },
          [Call.CreateTexture s.device9 w (Int.tdiv (h * 3) 2) false false,
           Call.GetSurfaceLevel t9])
  else (true, s, [])

/-- The final registration of `ensureD3D9CUDA`. -/
def ensureD3D9CUDA.registerResource (s : EGLInteropResource) (b : CudaBackend) :
    Bool × EGLInteropResource × List Call :=
  match b.cuGraphicsD3D9RegisterResource with
  | none => (false, s, [Call.cuGraphicsD3D9RegisterResource s.texture9_nv12])
  | some n => (true, { s with res0 := { s.res0 with cuRes := n } },
      [Call.cuGraphicsD3D9RegisterResource s.texture9_nv12])

/-- `EGLInteropResource::ensureD3D9CUDA(w, h, ch)`. -/
def ensureD3D9CUDA (s : EGLInteropResource) (b : CudaBackend) (d : D3DBackend)
    (w h ch : Int) : Bool × EGLInteropResource × List Call :=
  let r := s.res0
  if r.w = w ∧ r.h = h ∧ r.H = ch ∧ r.cuRes ≠ 0 then (true, s, [])
  else
    andThen (ensureD3D9CUDA.createContext s b d) (fun s1 =>
      andThen (ensureD3D9CUDA.unregisterStale s1 b) (fun s2 =>
        andThen (ensureD3D9CUDA.createTexture s2 d w h) (fun s3 =>
          ensureD3D9CUDA.registerResource s3 b) id) id) id

/-- The loop of `ensureD3D9EGL` that looks for the configuration whose
`EGL_CONFIG_ID` is `cfg_id`; `0` when there is none. -/
def ensureD3D9EGL.findConfig (dpy : Handle) (configId : Handle → Int) (cfg_id : Int) :
    List Handle → Handle × List Call
  | [] => (0, [])
  | c :: cs =>
    if configId c = cfg_id then (c, [Call.eglGetConfigAttrib dpy c])
    else
      match ensureD3D9EGL.findConfig dpy configId cfg_id cs with
      | (r, t) => (r, Call.eglGetConfigAttrib dpy c :: t)

/-- The display and configuration lookup of `ensureD3D9EGL` (both preprocessor
variants): the configuration (`none` when the function returns `false` here),
the display stored in `egl->dpy`, the calls. -/
def ensureD3D9EGL.lookup (d : D3DBackend) : Option Handle × Handle × List Call :=
  if d.guiPrivate then
    (some d.nativeConfig, d.nativeDisplay,
      [Call.nativeResourceForContext, Call.nativeResourceForContext])
  else
    let dpy := d.eglGetCurrentDisplay
    let t0 := [Call.eglGetCurrentDisplay, Call.eglQueryString dpy, Call.eglQueryString dpy,
      Call.eglQueryContext dpy]
    match d.eglQueryContext with
    | none => (none, dpy, t0)
    | some cfg_id =>
      if d.eglGetConfigsCount then
        match d.eglGetConfigs with
        | none => (none, dpy, t0 ++ [Call.eglGetConfigs dpy, Call.eglGetConfigs dpy])
        | some cfgs =>
          match ensureD3D9EGL.findConfig dpy d.configId cfg_id cfgs with
          | (cfg, t) =>
            (some cfg, dpy, t0 ++ [Call.eglGetConfigs dpy, Call.eglGetConfigs dpy] ++ t)
      else (none, dpy, t0 ++ [Call.eglGetConfigs dpy])

/-- The pbuffer creation of `ensureD3D9EGL` taken when only
`EGL_ANGLE_query_surface_pointer` is available; the second state component is
`share_handle`. -/
def ensureD3D9EGL.querySurface (s : EGLInteropResource) (d : D3DBackend)
    (cfg : Handle) (w h : Int) (alpha : Bool) :
    Bool × (EGLInteropResource × Handle) × List Call :=
  if !d.extShareHandleClientBuffer && d.extQuerySurfacePointer then
    let s1 := { s with egl := { s.egl with surface := d.eglCreatePbufferSurface } }
    let t := [Call.eglCreatePbufferSurface s.egl.dpy cfg w h alpha]
    if d.eglCreatePbufferSurface = 0 then (false, (s1, 0), t)
    else if !d.eglGetProcAddress then
      (false, (s1, 0), t ++ [Call.eglGetProcAddress, Call.qWarning])
    else
      match d.eglQuerySurfacePointerANGLE with
      | none => (false, (s1, 0), t ++ [Call.eglGetProcAddress,
          Call.eglQuerySurfacePointerANGLE s.egl.dpy d.eglCreatePbufferSurface])
      | some sh => (true, (s1, sh), t ++ [Call.eglGetProcAddress,
          Call.eglQuerySurfacePointerANGLE s.egl.dpy d.eglCreatePbufferSurface])
  else (true, (s, 0), [])

/-- The render-target texture of `ensureD3D9EGL`: release the old surface and
texture, create the `w` by `h` texture, get its level-0 surface. -/
def ensureD3D9EGL.createTexture (s : EGLInteropResource) (d : D3DBackend)
    (w h : Int) (alpha : Bool) (share : Handle) :
    Bool × (EGLInteropResource × Handle) × List Call :=
  let s1 := { s with surface9 := 0, texture9 := 0 }
  let t := SafeRelease s.surface9 ++ SafeRelease s.texture9 ++
    [Call.CreateTexture s.device9 w h true alpha]
  match d.CreateTexture with
  | none => (false, (s1, share), t)
  | some (t9, sh) =>
    let s2 := { s1 with texture9 := t9 }
    match d.GetSurfaceLevel with
    | none => (false, (s2, sh), t ++ [Call.GetSurfaceLevel t9])
    | some sf => (true, ({ s2 with surface9 := sf }, sh), t ++ [Call.GetSurfaceLevel t9])

/-- The pbuffer creation of `ensureD3D9EGL` taken when
`EGL_ANGLE_d3d_share_handle_client_buffer` is available. -/
def ensureD3D9EGL.clientBuffer (s : EGLInteropResource) (d : D3DBackend)
    (cfg : Handle) (w h : Int) (alpha : Bool) (share : Handle) :
    Bool × EGLInteropResource × List Call :=
  if d.extShareHandleClientBuffer then
    (decide (d.eglCreatePbufferFromClientBuffer ≠ 0),
      { s with egl := { s.egl with surface := d.eglCreatePbufferFromClientBuffer } },
      [Call.eglCreatePbufferFromClientBuffer s.egl.dpy share cfg w h alpha])
  else (true, s, [])

/-- `EGLInteropResource::ensureD3D9EGL(w, h)`. -/
def ensureD3D9EGL (s : EGLInteropResource) (d : D3DBackend) (w h : Int) :
    Bool × EGLInteropResource × List Call :=
  if s.surface9 ≠ 0 ∧ s.res0.w = w ∧ s.res0.h = h then (true, s, [])
  else
    match ensureD3D9EGL.lookup d with
    | (none, dpy, t0) => (false, { s with egl := { s.egl with dpy := dpy } }, t0)
    | (some cfg, dpy, t0) =>
      let s0 := { s with egl := { s.egl with dpy := dpy } }
      let t1 := t0 ++ [Call.eglQueryString dpy]
      if !d.extShareHandleClientBuffer && !d.extQuerySurfacePointer then
        (false, s0, t1 ++ [Call.qWarning])
      else
        let alpha := decide (d.hasAlpha ≠ 0)
        andThen (true, s0, t1 ++ [Call.eglGetConfigAttrib dpy cfg]) (fun s1 =>
          andThen (ensureD3D9EGL.querySurface s1 d cfg w h alpha) (fun p =>
            andThen (ensureD3D9EGL.createTexture p.1 d w h alpha p.2) (fun q =>
              ensureD3D9EGL.clientBuffer q.1 d cfg w h alpha q.2)
              Prod.fst)
            Prod.fst) id

/-- The failure tail of `EGLInteropResource::ensureResource`. -/
def ensureResource.release (s : EGLInteropResource) : EGLInteropResource × List Call :=
  match releaseEGL s with
  | (s1, t1) =>
    ({ s1 with query9 := 0, surface9 := 0, texture9 := 0, surface9_nv12 := 0,
               texture9_nv12 := 0 },
      t1 ++ SafeRelease s1.query9 ++ SafeRelease s1.surface9 ++ SafeRelease s1.texture9 ++
        SafeRelease s1.surface9_nv12 ++ SafeRelease s1.texture9_nv12)

/-- `EGLInteropResource::ensureResource(w, h, ch, tex)`. -/
def ensureResource (s : EGLInteropResource) (b : CudaBackend) (d : D3DBackend)
    (w h ch : Int) (tex : GLuint) : Bool × EGLInteropResource × List Call :=
  match ensureD3D9CUDA s b d w h ch with
  | (false, s1, t1) =>
    match ensureResource.release s1 with
    | (s2, t2) => (false, s2, t1 ++ t2)
  | (true, s1, t1) =>
    match ensureD3D9EGL s1 d w h with
    | (false, s2, t2) =>
      match ensureResource.release s2 with
      | (s3, t3) => (false, s3, t1 ++ t2 ++ t3)
    | (true, s2, t2) =>
      (true, { s2 with res0 := { s2.res0 with texture := tex, w := w, h := h, H := ch } },
        t1 ++ t2)

/-- The macro `SUCCEEDED(hr)`. -/
def SUCCEEDED (hr : Int) : Bool := decide (0 ≤ hr)

/-- The flush poll of the bridge step, entered with loop counter `k`:
`while (query9->GetData(NULL, 0, D3DGETDATA_FLUSH) == FALSE && ++k < 10) Sleep(1);`. -/
def map.poll (query9 : Handle) (getData : Nat → Int) (k : Nat) : List Call :=
  if getData k = FALSE then
    if k + 1 < 10 then
      Call.GetData query9 :: Call.Sleep 1 :: map.poll query9 getData (k + 1)
    else [Call.GetData query9]
  else [Call.GetData query9]
termination_by 10 - k

/-- The bridge step `EGLInteropResource::map(IDirect3DSurface9* surface, GLuint tex,
int w, int h, int ch)`; it does not change the object. -/
def map_IDirect3DSurface9 (s : EGLInteropResource) (d : D3DBackend) (surface : Handle)
    (tex : GLuint) (w h _ch : Int) : Bool × List Call :=
  let t0 := [Call.GetDesc surface, Call.glBindTexture tex,
    Call.StretchRect s.device9 surface w h s.surface9]
  if SUCCEEDED d.StretchRect then
    let tq := if s.query9 ≠ 0 then Call.Issue s.query9 :: map.poll s.query9 d.GetData 0
      else []
    (true, t0 ++ tq ++ [Call.eglBindTexImage s.egl.dpy s.egl.surface, Call.glBindTexture 0])
  else (true, t0 ++ [Call.qWarning, Call.glBindTexture 0])

/-- The luma copy descriptor built by `EGLInteropResource::map`. -/
def map.cu2dY (devptr : CUdeviceptr) (pitch : Nat) (array : Handle) (w h : Int) :
    CUDA_MEMCPY2D :=
  { CUDA_MEMCPY2D.zero with
    srcDevice := devptr, srcMemoryType := CU_MEMORYTYPE_DEVICE, srcPitch := pitch,
    dstArray := array, dstMemoryType := CU_MEMORYTYPE_ARRAY, dstPitch := pitch,
    WidthInBytes := toSizeT w, Height := toSizeT h }

/-- The chroma copy descriptor built by `EGLInteropResource::map` from the luma
one. -/
def map.cu2dUV (c : CUDA_MEMCPY2D) (h ch : Int) : CUDA_MEMCPY2D :=
  { c with srcXInBytes := 0, srcY := toSizeT ch, Height := c.Height / 2,
           dstXInBytes := 0, dstY := toSizeT h }

/-- The part of `EGLInteropResource::map` between the construction of the
decoder-frame unmapper and its destruction. -/
def map.body (s : EGLInteropResource) (b : CudaBackend) (d : D3DBackend)
    (devptr : CUdeviceptr) (pitch : Nat) (tex : GLuint) (w h ch : Int) (plane : Fin 2) :
    Bool × List Call :=
  let r := s.getRes plane
  if b.cuGraphicsMapResources then
    match b.cuGraphicsSubResourceGetMappedArray with
    | none => (false, [Call.cuGraphicsMapResources r.cuRes,
        Call.cuGraphicsSubResourceGetMappedArray r.cuRes])
    | some array =>
      let c := map.cu2dY devptr pitch array w h
      if b.cuMemcpy2DAsync then
        let t := [Call.cuGraphicsMapResources r.cuRes,
          Call.cuGraphicsSubResourceGetMappedArray r.cuRes,
          Call.cuMemcpy2DAsync c r.stream,
          Call.cuMemcpy2DAsync (map.cu2dUV c h ch) r.stream,
          Call.cuStreamSynchronize r.stream,
          Call.cuGraphicsUnmapResources r.cuRes]
        if b.cuGraphicsUnmapResources then
          match map_IDirect3DSurface9 s d s.surface9_nv12 tex w h ch with
          | (ok, t1) => (ok, t ++ t1)
        else (false, t)
      else (false, [Call.cuGraphicsMapResources r.cuRes,
        Call.cuGraphicsSubResourceGetMappedArray r.cuRes,
        Call.cuMemcpy2DAsync c r.stream])
  else (false, [Call.cuGraphicsMapResources r.cuRes])

/-- `EGLInteropResource::map(picIndex, param, tex, w, h, ch, plane)`; the
guards `locker` and `unmapper` are released in reverse order of construction
on every return path. -/
def map (s : EGLInteropResource) (b : CudaBackend) (d : D3DBackend) (picIndex : Int)
    (param : CUVIDPROCPARAMS) (tex : GLuint) (w h ch : Int) (plane : Fin 2) :
    Bool × EGLInteropResource × List Call :=
  match ensureResource s b d w h ch tex with
  | (false, s1, t1) =>
    (false, s1, AutoCtxLock.acquire s.lock ++ t1 ++ AutoCtxLock.release s.lock)
  | (true, s1, t1) =>
    match b.cuvidMapVideoFrame with
    | none => (false, s1, AutoCtxLock.acquire s.lock ++ t1 ++
        [Call.cuvidMapVideoFrame s1.dec picIndex param] ++ AutoCtxLock.release s.lock)
    | some (devptr, pitch) =>
      match map.body s1 b d devptr pitch tex w h ch plane with
      | (ok, t2) => (ok, s1, AutoCtxLock.acquire s.lock ++ t1 ++
          [Call.cuvidMapVideoFrame s1.dec picIndex param] ++ t2 ++
          CUVIDAutoUnmapper.release s1.dec devptr ++ AutoCtxLock.release s.lock)

end EGLInteropResource

/-! ## Call sequences and reachable states -/

/-- The copy descriptors of the `cuMemcpy2DAsync` calls of a trace, in order. -/
def copies : List Call → List CUDA_MEMCPY2D
  | [] => []
  | Call.cuMemcpy2DAsync c _ :: t => c :: copies t
  | _ :: t => copies t

/-- The number of `GetData` polls of a trace. -/
def polls : List Call → Nat
  | [] => 0
  | Call.GetData _ :: t => polls t + 1
  | _ :: t => polls t

/-- The handles passed to the `cuGraphicsUnregisterResource` calls of a trace,
in order. -/
def unregistered : List Call → List Handle
  | [] => []
  | Call.cuGraphicsUnregisterResource r :: t => r :: unregistered t
  | _ :: t => unregistered t

/-- The streams passed to the `cuStreamDestroy` calls of a trace, in order. -/
def destroyedStreams : List Call → List Handle
  | [] => []
  | Call.cuStreamDestroy st :: t => st :: destroyedStreams t
  | _ :: t => destroyedStreams t

/-- The decoder and device pointer of the `cuvidUnmapVideoFrame` calls of a
trace, in order. -/
def unmappedFrames : List Call → List (Handle × CUdeviceptr)
  | [] => []
  | Call.cuvidUnmapVideoFrame dec devptr :: t => (dec, devptr) :: unmappedFrames t
  | _ :: t => unmappedFrames t

/-- The sizes of the intermediate (not render-target) textures created by the
`CreateTexture` calls of a trace, in order. -/
def intermediateTextures : List Call → List (Int × Int)
  | [] => []
  | Call.CreateTexture _ w h false _ :: t => (w, h) :: intermediateTextures t
  | _ :: t => intermediateTextures t

/-- Host memory on which allocation and copy succeed; the buffer is at 8192. -/
def HostBackend.succeeding : HostBackend :=
  { cuMemAllocHost := some 8192, cuMemcpyDtoH := true }

/-- Host memory on which allocation succeeds (buffer at 8192) and the
device-to-host copy fails. -/
def HostBackend.copyFails : HostBackend :=
  { cuMemAllocHost := some 8192, cuMemcpyDtoH := false }

/-- Host memory on which the allocation fails. -/
def HostBackend.allocFails : HostBackend :=
  { cuMemAllocHost := none, cuMemcpyDtoH := true }

/-- A driver whose successful context creation and context pop yield a
non-null context. -/
def CudaBackend.NonNullContexts (b : CudaBackend) : Prop :=
  b.cuCtxCreate ≠ some 0 ∧ b.cuCtxPopCurrent ≠ some 0

instance (b : CudaBackend) : Decidable b.NonNullContexts := by
  unfold CudaBackend.NonNullContexts; infer_instance

/-- A driver on which every call succeeds: context 11, streams 21 and 22,
registered resource 31, decoder frame at device address 4096 with the given
pitch, mapped array 41. -/
def CudaBackend.succeeding (pitch : Nat) : CudaBackend :=
  { cuCtxCreate := some 11, cuD3D9CtxCreate := some (11, 0), cuStreamCreate0 := some 21,
    cuStreamCreate1 := some 22, cuCtxPopCurrent := some 11,
    cuGraphicsUnregisterResource := true, cuGraphicsGLRegisterImage := some 31,
    cuGraphicsD3D9RegisterResource := some 31, cuvidMapVideoFrame := some (4096, pitch),
    cuGraphicsMapResources := true, cuGraphicsSubResourceGetMappedArray := some 41,
    cuMemcpy2DAsync := true, cuMemcpy2DAsyncUV := true, cuStreamSynchronize := true,
    cuGraphicsUnmapResources := true }

/-- A driver on which every call fails. -/
def CudaBackend.failing : CudaBackend :=
  { cuCtxCreate := none, cuD3D9CtxCreate := none, cuStreamCreate0 := none,
    cuStreamCreate1 := none, cuCtxPopCurrent := none,
    cuGraphicsUnregisterResource := false, cuGraphicsGLRegisterImage := none,
    cuGraphicsD3D9RegisterResource := none, cuvidMapVideoFrame := none,
    cuGraphicsMapResources := false, cuGraphicsSubResourceGetMappedArray := none,
    cuMemcpy2DAsync := false, cuMemcpy2DAsyncUV := false, cuStreamSynchronize := false,
    cuGraphicsUnmapResources := false }

/-- A driver on which every call succeeds except the unregistration of a
graphics resource. -/
def CudaBackend.unregisterFails : CudaBackend :=
  { CudaBackend.succeeding 2048 with cuGraphicsUnregisterResource := false }

/-- A driver on which every call succeeds except the registration of the GL
texture. -/
def CudaBackend.registerFails : CudaBackend :=
  { CudaBackend.succeeding 2048 with cuGraphicsGLRegisterImage := none }

/-- A driver on which every call succeeds except the asynchronous 2D copy. -/
def CudaBackend.copyFails : CudaBackend :=
  { CudaBackend.succeeding 2048 with cuMemcpy2DAsync := false }

/-- A driver on which the decoder refuses to map the picture. -/
def CudaBackend.mapFrameFails : CudaBackend :=
  { CudaBackend.succeeding 2048 with cuvidMapVideoFrame := none }

/-- The succeeding driver answering the second registration of a session: the
new resource handle is 32. -/
def CudaBackend.succeedingNext (pitch : Nat) : CudaBackend :=
  { CudaBackend.succeeding pitch with cuGraphicsGLRegisterImage := some 32 }

/-- A Direct3D 9 / EGL side on which every call succeeds (device 61, query 71,
intermediate texture 50 with surface 51, display 81, render-target texture 53
with surface 52, pbuffer 82); the blit returns `S_OK` and every flush poll
returns 1. -/
def D3DBackend.succeeding : D3DBackend :=
  { guiPrivate := false, LoadLibrary := 60, CreateDevice9Ex := (61, 62),
    CreateDevice9 := (0, 0), CreateQuery := some 71, CreateTextureNV12 := some 50,
    GetSurfaceLevelNV12 := some 51, nativeDisplay := 81, nativeConfig := 83,
    eglGetCurrentDisplay := 81, eglQueryContext := some 5, eglGetConfigsCount := true,
    eglGetConfigs := some [84, 83], configId := fun c => if c = 83 then 5 else 0,
    extShareHandleClientBuffer := true, extQuerySurfacePointer := false, hasAlpha := 1,
    eglCreatePbufferSurface := 82, eglGetProcAddress := true,
    eglQuerySurfacePointerANGLE := some 90, CreateTexture := some (53, 90),
    GetSurfaceLevel := some 52, eglCreatePbufferFromClientBuffer := 82,
    StretchRect := 0, GetData := fun _ => 1 }

/-- The same, with a blit that fails with `D3DERR_INVALIDCALL`. -/
def D3DBackend.blitFails : D3DBackend :=
  { D3DBackend.succeeding with StretchRect := -2005530516 }

/-- The same as `succeeding`, with a flush query whose `GetData` returns `FALSE`
at every poll. -/
def D3DBackend.neverFlushed : D3DBackend :=
  { D3DBackend.succeeding with GetData := fun _ => FALSE }

/-- A bridged-path object after a successful `ensureResource` for a 1920 by 1080
frame (padded height 1088) and texture 7. -/
def EGLInteropResource.ready : EGLInteropResource :=
  { dev := 0, ctx := 11, dec := 1, lock := 2,
    res0 := { texture := 7, w := 1920, h := 1080, H := 1088, cuRes := 31, stream := 21 },
    res1 := { texture := 0, w := 0, h := 0, H := 0, cuRes := 0, stream := 22 },
    egl := { dpy := 81, surface := 82 }, dll9 := 60, d3d9 := 62, device9 := 61,
    texture9 := 53, surface9 := 52, texture9_nv12 := 50, surface9_nv12 := 51,
    query9 := 71 }

/-- A step of the bridged path keeps the intermediate texture of `s`: the
texture and surface handles are the same afterwards and no intermediate
texture was created. -/
def EGLInteropResource.KeepsIntermediate (s : EGLInteropResource)
    (x : Bool × EGLInteropResource × List Call) : Prop :=
  x.2.1.texture9_nv12 = s.texture9_nv12 ∧ x.2.1.surface9_nv12 = s.surface9_nv12 ∧
    intermediateTextures x.2.2 = []

/-- The invariant of the plane slots: without a context no plane holds a
registered resource. -/
def InteropResource.Consistent (s : InteropResource) : Prop :=
  s.ctx = 0 → s.res0.cuRes = 0 ∧ s.res1.cuRes = 0

namespace GLInteropResource

/-- The states a `GLInteropResource` can be in: the constructed object, and
what `ensureResource` and `map` make of a reachable state, for any driver
behaviour (with non-null contexts on success). -/
inductive Reachable : InteropResource → Prop where
  | new (d : Int) (decoder declock : Handle) :
      Reachable (InteropResource.new d decoder declock)
  | ensureResource {s : InteropResource} (b : CudaBackend) (w h ch : Int) (tex : GLuint)
      (plane : Fin 2) : b.NonNullContexts → Reachable s →
      Reachable (GLInteropResource.ensureResource s b w h ch tex plane).2.1
  | map {s : InteropResource} (b : CudaBackend) (picIndex : Int) (param : CUVIDPROCPARAMS)
      (tex : GLuint) (w h ch : Int) (plane : Fin 2) : b.NonNullContexts → Reachable s →
      Reachable (GLInteropResource.map s b picIndex param tex w h ch plane).2.1

/-- Consecutive calls `ensureResource(w, h, ch, tex, plane)` with the same
arguments, one per driver behaviour of the list: the results, the final state,
all calls issued. -/
def ensureResource.iterate (w h ch : Int) (tex : GLuint) (plane : Fin 2) :
    InteropResource → List CudaBackend → List Bool × InteropResource × List Call
  | s, [] => ([], s, [])
  | s, b :: bs =>
    match GLInteropResource.ensureResource s b w h ch tex plane with
    | (ok, s1, t1) =>
      match ensureResource.iterate w h ch tex plane s1 bs with
      | (oks, s2, t2) => (ok :: oks, s2, t1 ++ t2)

end GLInteropResource

/-! ## Auxiliary lemmas -/

theorem InteropResource.getRes_setRes (s : InteropResource) (plane : Fin 2) (r : TexRes) :
    (s.setRes plane r).getRes plane = r := by
  unfold InteropResource.getRes InteropResource.setRes
  split <;> simp_all

theorem InteropResource.setRes_ctx (s : InteropResource) (plane : Fin 2) (r : TexRes) :
    (s.setRes plane r).ctx = s.ctx := by
  unfold InteropResource.setRes
  split <;> rfl

namespace GLInteropResource

theorem ensureResource_hit (s : InteropResource) (b : CudaBackend) (w h ch : Int)
    (tex : GLuint) (plane : Fin 2)
    (hr : (s.getRes plane).texture = tex ∧ (s.getRes plane).w = w ∧
      (s.getRes plane).h = h ∧ (s.getRes plane).H = ch ∧ (s.getRes plane).cuRes ≠ 0) :
    ensureResource s b w h ch tex plane = (true, s, []) := by
  unfold ensureResource
  simp only [hr, ne_eq, not_false_eq_true, and_self, if_true]

theorem ensureResource_miss (s : InteropResource) (b : CudaBackend) (w h ch : Int)
    (tex : GLuint) (plane : Fin 2)
    (hr : ¬ ((s.getRes plane).texture = tex ∧ (s.getRes plane).w = w ∧
      (s.getRes plane).h = h ∧ (s.getRes plane).H = ch ∧ (s.getRes plane).cuRes ≠ 0)) :
    ensureResource s b w h ch tex plane =
      match ensureResource.createContext s b with
      | (false, s1, t1) => (false, s1, t1)
      | (true, s1, t1) =>
        match ensureResource.registerTexture s1 b w h ch tex plane with
        | (ok, s2, t2) => (ok, s2, t1 ++ t2) := by
  unfold ensureResource
  simp only [hr, if_false]

theorem registerTexture_post (s : InteropResource) (b : CudaBackend) (w h ch : Int)
    (tex : GLuint) (plane : Fin 2)
    (hok : (ensureResource.registerTexture s b w h ch tex plane).1 = true) :
    ((ensureResource.registerTexture s b w h ch tex plane).2.1.getRes plane).texture = tex ∧
    ((ensureResource.registerTexture s b w h ch tex plane).2.1.getRes plane).w = w ∧
    ((ensureResource.registerTexture s b w h ch tex plane).2.1.getRes plane).h = h ∧
    ((ensureResource.registerTexture s b w h ch tex plane).2.1.getRes plane).H = ch := by
  unfold ensureResource.registerTexture at hok ⊢
  by_cases h0 : (s.getRes plane).cuRes = 0 <;>
    cases hu : b.cuGraphicsUnregisterResource <;>
    cases hg : b.cuGraphicsGLRegisterImage <;>
    simp_all [InteropResource.getRes_setRes]

theorem ensureResource_post (s : InteropResource) (b : CudaBackend) (w h ch : Int)
    (tex : GLuint) (plane : Fin 2)
    (hok : (ensureResource s b w h ch tex plane).1 = true) :
    ((ensureResource s b w h ch tex plane).2.1.getRes plane).texture = tex ∧
    ((ensureResource s b w h ch tex plane).2.1.getRes plane).w = w ∧
    ((ensureResource s b w h ch tex plane).2.1.getRes plane).h = h ∧
    ((ensureResource s b w h ch tex plane).2.1.getRes plane).H = ch := by
  by_cases hr : (s.getRes plane).texture = tex ∧ (s.getRes plane).w = w ∧
      (s.getRes plane).h = h ∧ (s.getRes plane).H = ch ∧ (s.getRes plane).cuRes ≠ 0
  · rw [ensureResource_hit s b w h ch tex plane hr]
    exact ⟨hr.1, hr.2.1, hr.2.2.1, hr.2.2.2.1⟩
  · rw [ensureResource_miss s b w h ch tex plane hr] at hok ⊢
    rcases hc : ensureResource.createContext s b with ⟨ok1, s1, t1⟩
    rw [hc] at hok
    cases ok1
    · simp at hok
    · simp only [] at hok ⊢
      exact registerTexture_post s1 b w h ch tex plane hok

theorem createContext_of_ctx (s : InteropResource) (b : CudaBackend) (h : s.ctx ≠ 0) :
    ensureResource.createContext s b = (true, s, []) := by
  unfold ensureResource.createContext
  simp [h]

theorem createContext_cuRes (s : InteropResource) (b : CudaBackend) (plane : Fin 2) :
    ((ensureResource.createContext s b).2.1.getRes plane).cuRes =
      (s.getRes plane).cuRes := by
  unfold ensureResource.createContext InteropResource.getRes
  by_cases h : s.ctx = 0 <;> cases hc : b.cuCtxCreate <;> cases h0 : b.cuStreamCreate0 <;>
    cases h1 : b.cuStreamCreate1 <;> cases hp : b.cuCtxPopCurrent <;>
    by_cases hpl : plane = 0 <;> simp [h, hpl]

theorem createContext_ctx (s : InteropResource) (b : CudaBackend)
    (hb : b.NonNullContexts) (hok : (ensureResource.createContext s b).1 = true) :
    (ensureResource.createContext s b).2.1.ctx ≠ 0 := by
  unfold ensureResource.createContext at hok ⊢
  obtain ⟨hb1, hb2⟩ := hb
  by_cases h : s.ctx = 0 <;> cases hc : b.cuCtxCreate <;> cases hp : b.cuCtxPopCurrent <;>
    simp_all

theorem createContext_consistent (s : InteropResource) (b : CudaBackend)
    (hb : b.NonNullContexts) (hs : s.Consistent) :
    (ensureResource.createContext s b).2.1.Consistent := by
  have h0 := createContext_cuRes s b 0
  have h1 := createContext_cuRes s b 1
  simp only [InteropResource.getRes, if_true, Fin.isValue, one_ne_zero, if_false] at h0 h1
  intro hctx
  rw [h0, h1]
  apply hs
  revert hctx
  unfold ensureResource.createContext
  obtain ⟨hb1, hb2⟩ := hb
  by_cases h : s.ctx = 0 <;> cases hc : b.cuCtxCreate <;> cases hp : b.cuCtxPopCurrent <;>
    simp_all

theorem registerTexture_ctx (s : InteropResource) (b : CudaBackend) (w h ch : Int)
    (tex : GLuint) (plane : Fin 2) :
    (ensureResource.registerTexture s b w h ch tex plane).2.1.ctx = s.ctx := by
  unfold ensureResource.registerTexture
  by_cases h0 : (s.getRes plane).cuRes = 0 <;>
    cases hu : b.cuGraphicsUnregisterResource <;>
    cases hg : b.cuGraphicsGLRegisterImage <;>
    simp [h0, InteropResource.setRes_ctx]

theorem ensureResource_consistent (s : InteropResource) (b : CudaBackend)
    (hb : b.NonNullContexts) (w h ch : Int) (tex : GLuint) (plane : Fin 2)
    (hs : s.Consistent) : (ensureResource s b w h ch tex plane).2.1.Consistent := by
  by_cases hr : (s.getRes plane).texture = tex ∧ (s.getRes plane).w = w ∧
      (s.getRes plane).h = h ∧ (s.getRes plane).H = ch ∧ (s.getRes plane).cuRes ≠ 0
  · rw [ensureResource_hit s b w h ch tex plane hr]
    exact hs
  · rw [ensureResource_miss s b w h ch tex plane hr]
    have hc1 := createContext_consistent s b hb hs
    have hc2 := createContext_ctx s b hb
    rcases hc : ensureResource.createContext s b with ⟨ok1, s1, t1⟩
    rw [hc] at hc1 hc2
    cases ok1
    · exact hc1
    · intro hctx
      simp only [] at hctx
      rw [registerTexture_ctx] at hctx
      exact (hc2 rfl hctx).elim

theorem map_state (s : InteropResource) (b : CudaBackend) (picIndex : Int)
    (param : CUVIDPROCPARAMS) (tex : GLuint) (w h ch : Int) (plane : Fin 2) :
    (map s b picIndex param tex w h ch plane).2.1 =
      (ensureResource s b w h ch tex plane).2.1 := by
  unfold map
  rcases he : ensureResource s b w h ch tex plane with ⟨ok1, s1, t1⟩
  cases ok1
  · rfl
  · cases hv : b.cuvidMapVideoFrame with
    | none => rfl
    | some v => rfl

theorem Reachable.consistent {s : InteropResource} (hs : Reachable s) : s.Consistent := by
  induction hs with
  | new d decoder declock => intro _; exact ⟨rfl, rfl⟩
  | ensureResource b w h ch tex plane hb _ ih =>
    exact ensureResource_consistent _ b hb w h ch tex plane ih
  | map b picIndex param tex w h ch plane hb _ ih =>
    rw [map_state]
    exact ensureResource_consistent _ b hb w h ch tex plane ih

theorem Reachable.ctx_of_registered {s : InteropResource} (hs : Reachable s)
    (plane : Fin 2) (hreg : (s.getRes plane).cuRes ≠ 0) : s.ctx ≠ 0 := by
  intro hctx
  have hc := hs.consistent hctx
  unfold InteropResource.getRes at hreg
  by_cases hpl : plane = 0
  · simp [hpl, hc.1] at hreg
  · simp [hpl, hc.2] at hreg

theorem iterate_hit (w h ch : Int) (tex : GLuint) (plane : Fin 2) (s : InteropResource)
    (hr : (s.getRes plane).texture = tex ∧ (s.getRes plane).w = w ∧
      (s.getRes plane).h = h ∧ (s.getRes plane).H = ch ∧ (s.getRes plane).cuRes ≠ 0)
    (bs : List CudaBackend) :
    ensureResource.iterate w h ch tex plane s bs =
      (List.replicate bs.length true, s, []) := by
  induction bs with
  | nil => rfl
  | cons b bs ih =>
    unfold ensureResource.iterate
    rw [ensureResource_hit s b w h ch tex plane hr]
    simp only [ih]
    rfl

end GLInteropResource

/-! ## `SurfaceInteropCUDA::map` -/

/-- C1: `SurfaceInteropCUDA::map` returns null and invokes neither the
resource's `map` nor its `mapToHost` whenever the resource reference has
expired, or the handle argument is null, or the recorded picture index is
negative, for every surface kind, format and plane. -/
theorem SurfaceInteropCUDA.map_null_without_calls (s : SurfaceInteropCUDA)
    (deref : Nat → GLuint) (type : SurfaceType) (fmt : VideoFormat) (handle : Nat)
    (plane : Int) (h : s.m_resource = none ∨ handle = 0 ∨ s.m_index < 0) :
    SurfaceInteropCUDA.map s deref type fmt handle plane = (0, []) := by
  unfold SurfaceInteropCUDA.map
  cases hres : s.m_resource with
  | none => rfl
  | some res =>
    rcases h with h | h | h
    · rw [hres] at h; cases h
    · simp [h]
    · by_cases hh : handle = 0
      · simp [hh]
      · simp [hh, h]

/-- Instance of C1: a live resource, a non-null handle, no frame set
(picture index `-1`), texture kind. -/
theorem SurfaceInteropCUDA.map_null_without_calls_witness :
    (({ m_resource := some { map := fun _ _ _ _ _ _ _ => true,
                             mapToHost := fun _ h _ _ _ _ _ => h },
        m_index := -1, m_param := ⟨0⟩, w := 1920, h := 1080, H := 1088 } :
        SurfaceInteropCUDA).m_resource = none ∨ (16 : Nat) = 0 ∨
      ({ m_resource := some { map := fun _ _ _ _ _ _ _ => true,
                              mapToHost := fun _ h _ _ _ _ _ => h },
         m_index := -1, m_param := ⟨0⟩, w := 1920, h := 1080, H := 1088 } :
        SurfaceInteropCUDA).m_index < 0) ∧
    SurfaceInteropCUDA.map
      { m_resource := some { map := fun _ _ _ _ _ _ _ => true,
                             mapToHost := fun _ h _ _ _ _ _ => h },
        m_index := -1, m_param := ⟨0⟩, w := 1920, h := 1080, H := 1088 }
      (fun _ => 7) SurfaceType.GLTextureSurface ⟨0⟩ 16 0 = (0, []) :=
  ⟨Or.inr (Or.inr (by decide)),
   SurfaceInteropCUDA.map_null_without_calls _ _ _ _ _ _ (Or.inr (Or.inr (by decide)))⟩

/-- C2: after `setSurface(i, p, w, h, H)` with `i >= 0`, `map(kind, fmt, handle,
plane)` on a live resource with a non-null handle: for the texture kind the
resource's `map` is invoked exactly once, with `(i, p, *handle, w, h, H, plane)`,
and the result is `handle` when it returned true and null otherwise; for the
host-memory kind the result is what `mapToHost(fmt, handle, i, p, w, h, H)`
returns; for any other kind the result is null and the resource is not
invoked.  `setSurface` itself makes no resource call. -/
theorem SurfaceInteropCUDA.map_after_setSurface (s : SurfaceInteropCUDA)
    (res : ResourceRef) (hres : s.m_resource = some res) (deref : Nat → GLuint)
    (i : Int) (p : CUVIDPROCPARAMS) (w h H : Int) (hi : 0 ≤ i) (fmt : VideoFormat)
    (handle : Nat) (hh : handle ≠ 0) (plane : Int) :
    (SurfaceInteropCUDA.setSurface s i p w h H).2 = [] ∧
    SurfaceInteropCUDA.map (SurfaceInteropCUDA.setSurface s i p w h H).1 deref
        SurfaceType.GLTextureSurface fmt handle plane =
      (if res.map i p (deref handle) w h H plane then handle else 0,
        [ResourceCall.map i p (deref handle) w h H plane]) ∧
    SurfaceInteropCUDA.map (SurfaceInteropCUDA.setSurface s i p w h H).1 deref
        SurfaceType.HostMemorySurface fmt handle plane =
      (res.mapToHost fmt handle i p w h H,
        [ResourceCall.mapToHost fmt handle i p w h H]) ∧
    ∀ n : Nat, SurfaceInteropCUDA.map (SurfaceInteropCUDA.setSurface s i p w h H).1 deref
        (SurfaceType.Other n) fmt handle plane = (0, []) := by
  have hi2 : ¬ i < 0 := not_lt.mpr hi
  refine ⟨rfl, ?_, ?_, ?_⟩
  · unfold SurfaceInteropCUDA.map SurfaceInteropCUDA.setSurface
    simp only [hres, hh, hi2, if_false, if_true]
    by_cases hm : res.map i p (deref handle) w h H plane = true <;> simp [hm]
  · unfold SurfaceInteropCUDA.map SurfaceInteropCUDA.setSurface
    simp [hres, hh, hi2]
  · intro n
    unfold SurfaceInteropCUDA.map SurfaceInteropCUDA.setSurface
    simp [hres, hh, hi2]

/-- Instance of C2: picture index 3, a 1920 by 1080 frame with padded height
1088, handle address 16 holding texture 7, plane 1. -/
theorem SurfaceInteropCUDA.map_after_setSurface_witness :
    ((0 : Int) ≤ 3 ∧ (16 : Nat) ≠ 0) ∧
    SurfaceInteropCUDA.map (SurfaceInteropCUDA.setSurface
        { m_resource := some { map := fun _ _ t _ _ _ _ => decide (t = 7),
                               mapToHost := fun _ h _ _ _ _ _ => h },
          m_index := -1, m_param := ⟨0⟩, w := 0, h := 0, H := 0 }
        3 ⟨5⟩ 1920 1080 1088).1 (fun _ => 7)
        SurfaceType.GLTextureSurface ⟨0⟩ 16 1 =
      (16, [ResourceCall.map 3 ⟨5⟩ 7 1920 1080 1088 1]) :=
  ⟨⟨by decide, by decide⟩,
   (SurfaceInteropCUDA.map_after_setSurface
      { m_resource := some { map := fun _ _ t _ _ _ _ => decide (t = 7),
                             mapToHost := fun _ h _ _ _ _ _ => h },
        m_index := -1, m_param := ⟨0⟩, w := 0, h := 0, H := 0 }
      { map := fun _ _ t _ _ _ _ => decide (t = 7), mapToHost := fun _ h _ _ _ _ _ => h }
      rfl (fun _ => 7) 3 ⟨5⟩ 1920 1080 1088 (by decide) ⟨0⟩ 16 (by decide) 1).2.1⟩

/-! ## `GLInteropResource::ensureResource` -/

/-- C3: `GLInteropResource::ensureResource` is idempotent: when a call
`ensureResource(w, h, ch, tex, plane)` returned true and left a non-null
registered handle in the plane, an immediately following call with the same
arguments returns true, issues no driver call at all (for any driver
behaviour) and leaves the whole resource state unchanged. -/
theorem GLInteropResource.ensureResource_idempotent (s : InteropResource)
    (b b2 : CudaBackend) (w h ch : Int) (tex : GLuint) (plane : Fin 2)
    (hok : (GLInteropResource.ensureResource s b w h ch tex plane).1 = true)
    (hreg : ((GLInteropResource.ensureResource s b w h ch tex plane).2.1.getRes
      plane).cuRes ≠ 0) :
    GLInteropResource.ensureResource
        (GLInteropResource.ensureResource s b w h ch tex plane).2.1 b2 w h ch tex plane =
      (true, (GLInteropResource.ensureResource s b w h ch tex plane).2.1, []) := by
  have hp := GLInteropResource.ensureResource_post s b w h ch tex plane hok
  exact GLInteropResource.ensureResource_hit _ b2 w h ch tex plane
    ⟨hp.1, hp.2.1, hp.2.2.1, hp.2.2.2, hreg⟩

/-- Instance of C3: the first call on a fresh object, every driver call
succeeding, for a 1920 by 1080 frame with padded height 1088, texture 7,
plane 0; the second call is made with a driver on which everything fails. -/
theorem GLInteropResource.ensureResource_idempotent_witness :
    ((GLInteropResource.ensureResource (InteropResource.new 0 1 2)
        (CudaBackend.succeeding 2048) 1920 1080 1088 7 0).1 = true ∧
     ((GLInteropResource.ensureResource (InteropResource.new 0 1 2)
        (CudaBackend.succeeding 2048) 1920 1080 1088 7 0).2.1.getRes 0).cuRes ≠ 0) ∧
    GLInteropResource.ensureResource
        (GLInteropResource.ensureResource (InteropResource.new 0 1 2)
          (CudaBackend.succeeding 2048) 1920 1080 1088 7 0).2.1
        CudaBackend.failing 1920 1080 1088 7 0 =
      (true, (GLInteropResource.ensureResource (InteropResource.new 0 1 2)
          (CudaBackend.succeeding 2048) 1920 1080 1088 7 0).2.1, []) :=
  ⟨⟨by decide, by decide⟩,
   GLInteropResource.ensureResource_idempotent (InteropResource.new 0 1 2)
     (CudaBackend.succeeding 2048) CudaBackend.failing 1920 1080 1088 7 0
     (by decide) (by decide)⟩

/-- C4: for a plane that is registered against `(tex0, w0, h0, ch0)`, a call
`ensureResource` with a different width, height or padded height, the driver
calls succeeding, issues exactly one unregister of the old handle followed by
exactly one register of the new texture, with no context or stream creation,
and records the new `(tex, w, h, ch)`; every further call with those same new
arguments issues no driver call at all, whatever the driver would answer. -/
theorem GLInteropResource.ensureResource_reregisters_once (s : InteropResource)
    (hs : GLInteropResource.Reachable s) (plane : Fin 2)
    (hreg : (s.getRes plane).cuRes ≠ 0) (b : CudaBackend) (w h ch : Int) (tex : GLuint)
    (hdiff : (s.getRes plane).w ≠ w ∨ (s.getRes plane).h ≠ h ∨ (s.getRes plane).H ≠ ch)
    (n : Handle) (hunreg : b.cuGraphicsUnregisterResource = true)
    (hregister : b.cuGraphicsGLRegisterImage = some n) (hn : n ≠ 0) :
    GLInteropResource.ensureResource s b w h ch tex plane =
      (true,
        s.setRes plane { texture := tex, w := w, h := h, H := ch, cuRes := n,
                         stream := (s.getRes plane).stream },
        [Call.cuGraphicsUnregisterResource (s.getRes plane).cuRes,
         Call.cuGraphicsGLRegisterImage tex]) ∧
    ∀ bs : List CudaBackend,
      GLInteropResource.ensureResource.iterate w h ch tex plane
          (GLInteropResource.ensureResource s b w h ch tex plane).2.1 bs =
        (List.replicate bs.length true,
          (GLInteropResource.ensureResource s b w h ch tex plane).2.1, []) := by
  have hctx : s.ctx ≠ 0 := hs.ctx_of_registered plane hreg
  have hmiss : ¬ ((s.getRes plane).texture = tex ∧ (s.getRes plane).w = w ∧
      (s.getRes plane).h = h ∧ (s.getRes plane).H = ch ∧ (s.getRes plane).cuRes ≠ 0) := by
    rintro ⟨_, h1, h2, h3, _⟩
    rcases hdiff with hd | hd | hd
    · exact hd h1
    · exact hd h2
    · exact hd h3
  have heq : GLInteropResource.ensureResource s b w h ch tex plane =
      (true,
        s.setRes plane { texture := tex, w := w, h := h, H := ch, cuRes := n,
                         stream := (s.getRes plane).stream },
        [Call.cuGraphicsUnregisterResource (s.getRes plane).cuRes,
         Call.cuGraphicsGLRegisterImage tex]) := by
    rw [GLInteropResource.ensureResource_miss s b w h ch tex plane hmiss,
      GLInteropResource.createContext_of_ctx s b hctx]
    unfold GLInteropResource.ensureResource.registerTexture
    simp [hreg, hunreg, hregister]
  refine ⟨heq, ?_⟩
  intro bs
  rw [heq]
  apply GLInteropResource.iterate_hit
  rw [InteropResource.getRes_setRes]
  exact ⟨rfl, rfl, rfl, rfl, hn⟩

/-- Instance of C4: plane 0 registered for texture 7 at 1920 by 1080 (padded
1088), then asked for 1280 by 720 (padded 720). -/
theorem GLInteropResource.ensureResource_reregisters_once_witness :
    (GLInteropResource.Reachable (GLInteropResource.ensureResource
        (InteropResource.new 0 1 2) (CudaBackend.succeeding 2048) 1920 1080 1088 7 0).2.1 ∧
     ((GLInteropResource.ensureResource (InteropResource.new 0 1 2)
        (CudaBackend.succeeding 2048) 1920 1080 1088 7 0).2.1.getRes 0).cuRes ≠ 0) ∧
    GLInteropResource.ensureResource
        (GLInteropResource.ensureResource (InteropResource.new 0 1 2)
          (CudaBackend.succeeding 2048) 1920 1080 1088 7 0).2.1
        (CudaBackend.succeeding 1280) 1280 720 720 7 0 =
      (true,
        { dev := 0, ctx := 11, dec := 1, lock := 2,
          res0 := { texture := 7, w := 1280, h := 720, H := 720, cuRes := 31, stream := 21 },
          res1 := { texture := 0, w := 0, h := 0, H := 0, cuRes := 0, stream := 22 } },
        [Call.cuGraphicsUnregisterResource 31, Call.cuGraphicsGLRegisterImage 7]) :=
  ⟨⟨GLInteropResource.Reachable.ensureResource _ _ _ _ _ _ (by decide)
      (GLInteropResource.Reachable.new 0 1 2), by decide⟩,
   (GLInteropResource.ensureResource_reregisters_once
      (GLInteropResource.ensureResource (InteropResource.new 0 1 2)
        (CudaBackend.succeeding 2048) 1920 1080 1088 7 0).2.1
      (GLInteropResource.Reachable.ensureResource _ _ _ _ _ _ (by decide)
        (GLInteropResource.Reachable.new 0 1 2))
      0 (by decide) (CudaBackend.succeeding 1280) 1280 720 720 7
      (Or.inl (by decide)) 31 rfl rfl (by decide)).1⟩

/-- C5, as stated, fails: plane 0 is registered for texture 7 at 1920 by 1080
(handle 31); the next call asks for 1280 by 720 and the driver refuses to
unregister the stale resource.  `ensureResource` returns false and the plane
still holds handle 31. -/
theorem GLInteropResource.ensureResource_false_keeps_stale_handle :
    (GLInteropResource.ensureResource
        (GLInteropResource.ensureResource (InteropResource.new 0 1 2)
          (CudaBackend.succeeding 2048) 1920 1080 1088 7 0).2.1
        CudaBackend.unregisterFails 1280 720 720 7 0).1 = false ∧
    ((GLInteropResource.ensureResource
        (GLInteropResource.ensureResource (InteropResource.new 0 1 2)
          (CudaBackend.succeeding 2048) 1920 1080 1088 7 0).2.1
        CudaBackend.unregisterFails 1280 720 720 7 0).2.1.getRes 0).cuRes = 31 ∧
    (31 : Handle) ≠ 0 := by
  decide

/-- C5, amended: whenever `GLInteropResource::ensureResource` returns false on
a reachable state, either the unregistration of the plane's stale resource
failed, and then the object is unchanged (the plane keeps its stale non-null
handle) and that unregistration is the only driver call issued, or the plane's
external resource handle is null afterwards (failure of context creation,
context pop or registration). -/
theorem GLInteropResource.ensureResource_false_handle (s : InteropResource)
    (hs : GLInteropResource.Reachable s) (b : CudaBackend) (w h ch : Int) (tex : GLuint)
    (plane : Fin 2)
    (hfalse : (GLInteropResource.ensureResource s b w h ch tex plane).1 = false) :
    ((s.getRes plane).cuRes ≠ 0 ∧ b.cuGraphicsUnregisterResource = false ∧
      GLInteropResource.ensureResource s b w h ch tex plane =
        (false, s, [Call.cuGraphicsUnregisterResource (s.getRes plane).cuRes])) ∨
    ((GLInteropResource.ensureResource s b w h ch tex plane).2.1.getRes plane).cuRes = 0 := by
  by_cases hr : (s.getRes plane).texture = tex ∧ (s.getRes plane).w = w ∧
      (s.getRes plane).h = h ∧ (s.getRes plane).H = ch ∧ (s.getRes plane).cuRes ≠ 0
  · rw [GLInteropResource.ensureResource_hit s b w h ch tex plane hr] at hfalse
    cases hfalse
  · rw [GLInteropResource.ensureResource_miss s b w h ch tex plane hr] at hfalse ⊢
    by_cases hreg : (s.getRes plane).cuRes = 0
    · right
      have hc := GLInteropResource.createContext_cuRes s b plane
      rw [hreg] at hc
      rcases hcc : GLInteropResource.ensureResource.createContext s b with ⟨ok1, s1, t1⟩
      rw [hcc] at hc hfalse
      simp only [] at hc
      cases ok1
      · exact hc
      · simp only [] at hfalse ⊢
        revert hfalse
        unfold GLInteropResource.ensureResource.registerTexture
        cases hg : b.cuGraphicsGLRegisterImage <;> simp [hc]
    · have hctx : s.ctx ≠ 0 := hs.ctx_of_registered plane hreg
      rw [GLInteropResource.createContext_of_ctx s b hctx] at hfalse ⊢
      simp only [] at hfalse ⊢
      revert hfalse
      unfold GLInteropResource.ensureResource.registerTexture
      cases hu : b.cuGraphicsUnregisterResource <;>
        cases hg : b.cuGraphicsGLRegisterImage <;>
        simp [hreg, InteropResource.getRes_setRes]

/-- Instance of amended C5: on a fresh object the registration of texture 7
fails; the call returns false and plane 0 has no handle. -/
theorem GLInteropResource.ensureResource_false_handle_witness :
    (GLInteropResource.Reachable (InteropResource.new 0 1 2) ∧
     (GLInteropResource.ensureResource (InteropResource.new 0 1 2)
        CudaBackend.registerFails 1920 1080 1088 7 0).1 = false) ∧
    ((((InteropResource.new 0 1 2).getRes 0).cuRes ≠ 0 ∧
        CudaBackend.registerFails.cuGraphicsUnregisterResource = false ∧
        GLInteropResource.ensureResource (InteropResource.new 0 1 2)
            CudaBackend.registerFails 1920 1080 1088 7 0 =
          (false, InteropResource.new 0 1 2,
            [Call.cuGraphicsUnregisterResource ((InteropResource.new 0 1 2).getRes 0).cuRes])) ∨
      ((GLInteropResource.ensureResource (InteropResource.new 0 1 2)
        CudaBackend.registerFails 1920 1080 1088 7 0).2.1.getRes 0).cuRes = 0) :=
  ⟨⟨GLInteropResource.Reachable.new 0 1 2, by decide⟩,
   GLInteropResource.ensureResource_false_handle (InteropResource.new 0 1 2)
     (GLInteropResource.Reachable.new 0 1 2) CudaBackend.registerFails 1920 1080 1088 7 0
     (by decide)⟩

theorem copies_append (a b : List Call) : copies (a ++ b) = copies a ++ copies b := by
  induction a with
  | nil => rfl
  | cons x xs ih => cases x <;> simp [copies, ih]

theorem polls_append (a b : List Call) : polls (a ++ b) = polls a + polls b := by
  induction a with
  | nil => simp [polls]
  | cons x xs ih =>
    cases x <;> simp [polls, ih]
    omega

theorem toSizeT_of_nonneg (x : Int) (h0 : 0 ≤ x) (h1 : x < 2 ^ 31) :
    (toSizeT x : Int) = x := by
  unfold toSizeT
  have h2 : x % 2 ^ 64 = x := Int.emod_eq_of_lt h0 (by omega)
  rw [h2]
  exact Int.toNat_of_nonneg h0

namespace GLInteropResource

theorem createContext_copies (s : InteropResource) (b : CudaBackend) :
    copies (ensureResource.createContext s b).2.2 = [] := by
  unfold ensureResource.createContext
  by_cases h : s.ctx = 0 <;> cases hc : b.cuCtxCreate <;> cases hp : b.cuCtxPopCurrent <;>
    simp [h, copies]

theorem registerTexture_copies (s : InteropResource) (b : CudaBackend) (w h ch : Int)
    (tex : GLuint) (plane : Fin 2) :
    copies (ensureResource.registerTexture s b w h ch tex plane).2.2 = [] := by
  unfold ensureResource.registerTexture
  by_cases h0 : (s.getRes plane).cuRes = 0 <;>
    cases hu : b.cuGraphicsUnregisterResource <;>
    cases hg : b.cuGraphicsGLRegisterImage <;>
    simp [h0, copies]

theorem ensureResource_copies (s : InteropResource) (b : CudaBackend) (w h ch : Int)
    (tex : GLuint) (plane : Fin 2) :
    copies (ensureResource s b w h ch tex plane).2.2 = [] := by
  by_cases hr : (s.getRes plane).texture = tex ∧ (s.getRes plane).w = w ∧
      (s.getRes plane).h = h ∧ (s.getRes plane).H = ch ∧ (s.getRes plane).cuRes ≠ 0
  · rw [ensureResource_hit s b w h ch tex plane hr]
    rfl
  · rw [ensureResource_miss s b w h ch tex plane hr]
    have h1 := createContext_copies s b
    rcases hc : ensureResource.createContext s b with ⟨ok1, s1, t1⟩
    rw [hc] at h1
    cases ok1
    · exact h1
    · simp only [] at h1 ⊢
      rw [copies_append, h1, registerTexture_copies]
      rfl

theorem cu2d_fields (devptr : CUdeviceptr) (pitch : Nat) (array : Handle) (h ch : Int)
    (plane : Fin 2) :
    (map.cu2d devptr pitch array h ch plane).WidthInBytes = pitch ∧
    (map.cu2d devptr pitch array h ch plane).srcPitch = pitch ∧
    (map.cu2d devptr pitch array h ch plane).srcDevice = devptr ∧
    (map.cu2d devptr pitch array h ch plane).srcXInBytes = 0 ∧
    (map.cu2d devptr pitch array h ch plane).srcY = (if plane = 1 then toSizeT ch else 0) ∧
    (map.cu2d devptr pitch array h ch plane).Height =
      (if plane = 1 then toSizeT h / 2 else toSizeT h) := by
  unfold map.cu2d
  by_cases hp : plane = 1 <;> simp [hp, CUDA_MEMCPY2D.zero]

/-- The copies issued by `map`: none when the call fails before the copy, else
the single descriptor built for the plane; exactly one when the call succeeds. -/
theorem map_copies (s : InteropResource) (b : CudaBackend) (picIndex : Int)
    (param : CUVIDPROCPARAMS) (tex : GLuint) (w h ch : Int) (plane : Fin 2) :
    (copies (map s b picIndex param tex w h ch plane).2.2 = [] ∧
      (map s b picIndex param tex w h ch plane).1 = false) ∨
    ∃ devptr pitch array, b.cuvidMapVideoFrame = some (devptr, pitch) ∧
      copies (map s b picIndex param tex w h ch plane).2.2 =
        [map.cu2d devptr pitch array h ch plane] := by
  unfold map
  have he := ensureResource_copies s b w h ch tex plane
  rcases hc : ensureResource s b w h ch tex plane with ⟨ok1, s1, t1⟩
  rw [hc] at he
  simp only [] at he
  cases ok1
  · left
    simp [copies, copies_append, he, AutoCtxLock.acquire, AutoCtxLock.release,
        CUVIDAutoUnmapper.release]
  · cases hv : b.cuvidMapVideoFrame with
    | none =>
      left
      simp [copies, copies_append, he, AutoCtxLock.acquire, AutoCtxLock.release,
        CUVIDAutoUnmapper.release]
    | some v =>
      obtain ⟨devptr, pitch⟩ := v
      simp only []
      unfold map.body
      cases hm : b.cuGraphicsMapResources <;>
        cases ha : b.cuGraphicsSubResourceGetMappedArray <;>
        cases hcp : b.cuMemcpy2DAsync <;>
        simp [copies, copies_append, he, AutoCtxLock.acquire, AutoCtxLock.release,
        CUVIDAutoUnmapper.release] <;>
        exact ⟨devptr, pitch, ⟨rfl, rfl⟩, _, rfl⟩

end GLInteropResource

namespace EGLInteropResource

theorem andThen_copies {σ τ : Type} (x : Bool × σ × List Call)
    (f : σ → Bool × τ × List Call) (e : σ → τ) (hx : copies x.2.2 = [])
    (hf : ∀ s, copies (f s).2.2 = []) : copies (andThen x f e).2.2 = [] := by
  obtain ⟨ok, s, t⟩ := x
  unfold andThen
  cases ok
  · exact hx
  · have h1 := hf s
    simp only [] at hx ⊢
    rw [copies_append, hx, h1]
    rfl

theorem SafeRelease_copies (p : Handle) : copies (SafeRelease p) = [] := by
  unfold SafeRelease
  by_cases h : p = 0 <;> simp [h, copies]

theorem ensureD3DDevice_copies (s : EGLInteropResource) (d : D3DBackend) :
    copies (ensureD3DDevice s d).2.2 = [] := by
  unfold ensureD3DDevice
  by_cases h1 : s.device9 = 0 <;> by_cases h2 : s.dll9 = 0 <;>
    by_cases h3 : d.LoadLibrary = 0 <;> by_cases h4 : d.CreateDevice9Ex.1 = 0 <;>
    by_cases h5 : d.CreateDevice9.1 = 0 <;> cases h6 : d.CreateQuery <;>
    simp [h1, h2, h3, h4, h5, copies, copies_append]

theorem releaseEGL_copies (s : EGLInteropResource) : copies (releaseEGL s).2 = [] := by
  unfold releaseEGL
  by_cases h : s.egl.surface = 0 <;> simp [h, copies]

theorem egl_createContext_copies (s : EGLInteropResource) (b : CudaBackend) (d : D3DBackend) :
    copies (ensureD3D9CUDA.createContext s b d).2.2 = [] := by
  unfold ensureD3D9CUDA.createContext
  by_cases h : s.ctx = 0
  · simp only [h, if_true]
    apply andThen_copies _ _ _ (ensureD3DDevice_copies s d)
    intro s1
    cases hc : b.cuD3D9CtxCreate <;> cases hp : b.cuCtxPopCurrent <;> simp [copies]
  · simp [h, copies]

theorem unregisterStale_copies (s : EGLInteropResource) (b : CudaBackend) :
    copies (ensureD3D9CUDA.unregisterStale s b).2.2 = [] := by
  unfold ensureD3D9CUDA.unregisterStale
  by_cases h : s.res0.cuRes = 0 <;> cases hu : b.cuGraphicsUnregisterResource <;>
    simp [h, copies]

theorem createTexture_copies (s : EGLInteropResource) (d : D3DBackend) (w h : Int) :
    copies (ensureD3D9CUDA.createTexture s d w h).2.2 = [] := by
  unfold ensureD3D9CUDA.createTexture
  by_cases h0 : s.surface9_nv12 = 0 <;> cases h1 : d.CreateTextureNV12 <;>
    cases h2 : d.GetSurfaceLevelNV12 <;> simp [h0, copies]

theorem registerResource_copies (s : EGLInteropResource) (b : CudaBackend) :
    copies (ensureD3D9CUDA.registerResource s b).2.2 = [] := by
  unfold ensureD3D9CUDA.registerResource
  cases h : b.cuGraphicsD3D9RegisterResource <;> simp [copies]

theorem ensureD3D9CUDA_copies (s : EGLInteropResource) (b : CudaBackend) (d : D3DBackend)
    (w h ch : Int) : copies (ensureD3D9CUDA s b d w h ch).2.2 = [] := by
  unfold ensureD3D9CUDA
  simp only []
  split
  · rfl
  · apply andThen_copies _ _ _ (egl_createContext_copies s b d)
    intro s1
    apply andThen_copies _ _ _ (unregisterStale_copies s1 b)
    intro s2
    apply andThen_copies _ _ _ (createTexture_copies s2 d w h)
    intro s3
    exact registerResource_copies s3 b

theorem findConfig_copies (dpy : Handle) (configId : Handle → Int) (cfg_id : Int)
    (cfgs : List Handle) :
    copies (ensureD3D9EGL.findConfig dpy configId cfg_id cfgs).2 = [] := by
  induction cfgs with
  | nil => rfl
  | cons c cs ih =>
    unfold ensureD3D9EGL.findConfig
    by_cases h : configId c = cfg_id
    · simp [h, copies]
    · simp [h, copies, ih]

theorem lookup_copies (d : D3DBackend) : copies (ensureD3D9EGL.lookup d).2.2 = [] := by
  unfold ensureD3D9EGL.lookup
  cases h0 : d.guiPrivate <;> cases h1 : d.eglQueryContext <;>
    cases h2 : d.eglGetConfigsCount <;> cases h3 : d.eglGetConfigs <;>
    simp [copies, copies_append, findConfig_copies]

theorem querySurface_copies (s : EGLInteropResource) (d : D3DBackend) (cfg : Handle)
    (w h : Int) (alpha : Bool) :
    copies (ensureD3D9EGL.querySurface s d cfg w h alpha).2.2 = [] := by
  unfold ensureD3D9EGL.querySurface
  cases h0 : d.extShareHandleClientBuffer <;> cases h1 : d.extQuerySurfacePointer <;>
    by_cases h2 : d.eglCreatePbufferSurface = 0 <;> cases h3 : d.eglGetProcAddress <;>
    cases h4 : d.eglQuerySurfacePointerANGLE <;> simp [h2, copies]

theorem createTextureEGL_copies (s : EGLInteropResource) (d : D3DBackend) (w h : Int)
    (alpha : Bool) (share : Handle) :
    copies (ensureD3D9EGL.createTexture s d w h alpha share).2.2 = [] := by
  unfold ensureD3D9EGL.createTexture
  cases h0 : d.CreateTexture <;> cases h1 : d.GetSurfaceLevel <;>
    simp [copies, copies_append, SafeRelease_copies]

theorem clientBuffer_copies (s : EGLInteropResource) (d : D3DBackend) (cfg : Handle)
    (w h : Int) (alpha : Bool) (share : Handle) :
    copies (ensureD3D9EGL.clientBuffer s d cfg w h alpha share).2.2 = [] := by
  unfold ensureD3D9EGL.clientBuffer
  cases h0 : d.extShareHandleClientBuffer <;> simp [copies]

theorem ensureD3D9EGL_copies (s : EGLInteropResource) (d : D3DBackend) (w h : Int) :
    copies (ensureD3D9EGL s d w h).2.2 = [] := by
  unfold ensureD3D9EGL
  have hl := lookup_copies d
  split
  · rfl
  · rcases hlk : ensureD3D9EGL.lookup d with ⟨cfg, dpy, t0⟩
    rw [hlk] at hl
    simp only [] at hl
    cases cfg with
    | none => exact hl
    | some cfg =>
      simp only []
      split
      · simp [copies, copies_append, hl]
      · apply andThen_copies
        · simp [copies, copies_append, hl]
        · intro s1
          apply andThen_copies _ _ _ (querySurface_copies _ _ _ _ _ _)
          intro p
          apply andThen_copies _ _ _ (createTextureEGL_copies _ _ _ _ _ _)
          intro q
          exact clientBuffer_copies _ _ _ _ _ _ _

theorem release_copies (s : EGLInteropResource) :
    copies (ensureResource.release s).2 = [] := by
  unfold ensureResource.release
  have h := releaseEGL_copies s
  rcases hr : releaseEGL s with ⟨s1, t1⟩
  rw [hr] at h
  simp only [] at h ⊢
  simp [copies_append, SafeRelease_copies, h]

theorem egl_ensureResource_copies (s : EGLInteropResource) (b : CudaBackend) (d : D3DBackend)
    (w h ch : Int) (tex : GLuint) : copies (ensureResource s b d w h ch tex).2.2 = [] := by
  unfold ensureResource
  have h1 := ensureD3D9CUDA_copies s b d w h ch
  rcases hc : ensureD3D9CUDA s b d w h ch with ⟨ok1, s1, t1⟩
  rw [hc] at h1
  simp only [] at h1
  cases ok1
  · simp only []
    rw [copies_append, h1, release_copies]
    rfl
  · simp only []
    have h2 := ensureD3D9EGL_copies s1 d w h
    rcases he : ensureD3D9EGL s1 d w h with ⟨ok2, s2, t2⟩
    rw [he] at h2
    simp only [] at h2
    cases ok2
    · simp only []
      rw [copies_append, copies_append, h1, h2, release_copies]
      rfl
    · simp only []
      rw [copies_append, h1, h2]
      rfl

theorem poll_copies (q : Handle) (g : Nat → Int) :
    ∀ n k, 10 - k ≤ n → copies (map.poll q g k) = [] := by
  intro n
  induction n with
  | zero =>
    intro k hk
    rw [map.poll]
    have hk1 : ¬ k + 1 < 10 := by omega
    by_cases hg : g k = FALSE <;> simp [hg, hk1, copies]
  | succ n ih =>
    intro k hk
    rw [map.poll]
    by_cases hg : g k = FALSE <;> by_cases hk1 : k + 1 < 10 <;> simp [hg, hk1, copies]
    exact ih (k + 1) (by omega)

theorem poll_polls (q : Handle) (g : Nat → Int) :
    ∀ n k, 10 - k ≤ n → polls (map.poll q g k) ≤ max 1 (10 - k) := by
  intro n
  induction n with
  | zero =>
    intro k hk
    rw [map.poll]
    have hk1 : ¬ k + 1 < 10 := by omega
    by_cases hg : g k = FALSE <;> simp [hg, hk1, polls]
  | succ n ih =>
    intro k hk
    rw [map.poll]
    by_cases hg : g k = FALSE <;> by_cases hk1 : k + 1 < 10 <;> simp [hg, hk1, polls]
    have := ih (k + 1) (by omega)
    omega

theorem bridge_copies (s : EGLInteropResource) (d : D3DBackend) (surface : Handle)
    (tex : GLuint) (w h ch : Int) :
    copies (map_IDirect3DSurface9 s d surface tex w h ch).2 = [] := by
  unfold map_IDirect3DSurface9
  cases hs : SUCCEEDED d.StretchRect <;> by_cases hq : s.query9 = 0 <;>
    simp [hq, copies, copies_append, poll_copies s.query9 d.GetData 10 0 (by omega)]

/-- The copies issued by `map`: none or only the luma copy when the call fails
early, else the luma copy followed by the chroma copy. -/
theorem egl_map_copies (s : EGLInteropResource) (b : CudaBackend) (d : D3DBackend)
    (picIndex : Int) (param : CUVIDPROCPARAMS) (tex : GLuint) (w h ch : Int)
    (plane : Fin 2) :
    ((copies (map s b d picIndex param tex w h ch plane).2.2 = [] ∨
        ∃ devptr pitch array, copies (map s b d picIndex param tex w h ch plane).2.2 =
          [map.cu2dY devptr pitch array w h]) ∧
      (map s b d picIndex param tex w h ch plane).1 = false) ∨
    ∃ devptr pitch array, b.cuvidMapVideoFrame = some (devptr, pitch) ∧
      copies (map s b d picIndex param tex w h ch plane).2.2 =
        [map.cu2dY devptr pitch array w h,
         map.cu2dUV (map.cu2dY devptr pitch array w h) h ch] := by
  unfold map
  have he := egl_ensureResource_copies s b d w h ch tex
  rcases hc : ensureResource s b d w h ch tex with ⟨ok1, s1, t1⟩
  rw [hc] at he
  simp only [] at he
  cases ok1
  · left
    simp [copies, copies_append, he, AutoCtxLock.acquire, AutoCtxLock.release,
        CUVIDAutoUnmapper.release]
  · cases hv : b.cuvidMapVideoFrame with
    | none =>
      left
      simp [copies, copies_append, he, AutoCtxLock.acquire, AutoCtxLock.release,
        CUVIDAutoUnmapper.release]
    | some v =>
      obtain ⟨devptr, pitch⟩ := v
      simp only []
      unfold map.body
      have hb := bridge_copies s1 d s1.surface9_nv12 tex w h ch
      rcases hbr : map_IDirect3DSurface9 s1 d s1.surface9_nv12 tex w h ch with ⟨ok2, t2⟩
      rw [hbr] at hb
      simp only [] at hb
      cases hm : b.cuGraphicsMapResources <;>
        cases ha : b.cuGraphicsSubResourceGetMappedArray <;>
        cases hcp : b.cuMemcpy2DAsync <;>
        cases hu : b.cuGraphicsUnmapResources <;>
        simp [copies, copies_append, he, hb, AutoCtxLock.acquire, AutoCtxLock.release,
          CUVIDAutoUnmapper.release] <;>
        first
          | exact ⟨devptr, pitch, ⟨rfl, rfl⟩, _, rfl, rfl⟩
          | exact ⟨_, _, _, rfl⟩

end EGLInteropResource

/-! ## The copies issued by `map` -/

theorem GLInteropResource.gl_map_copies_issued (s : InteropResource) (b : CudaBackend)
    (picIndex : Int) (param : CUVIDPROCPARAMS) (tex : GLuint) (w h ch : Int) (plane : Fin 2)
    (devptr : CUdeviceptr) (pitch : Nat) (array : Handle)
    (he : (GLInteropResource.ensureResource s b w h ch tex plane).1 = true)
    (hv : b.cuvidMapVideoFrame = some (devptr, pitch))
    (hm : b.cuGraphicsMapResources = true)
    (ha : b.cuGraphicsSubResourceGetMappedArray = some array) :
    copies (GLInteropResource.map s b picIndex param tex w h ch plane).2.2 =
      [GLInteropResource.map.cu2d devptr pitch array h ch plane] ∧
    (GLInteropResource.map s b picIndex param tex w h ch plane).1 =
      (b.cuMemcpy2DAsync && b.cuGraphicsUnmapResources) := by
  unfold GLInteropResource.map
  have hc0 := GLInteropResource.ensureResource_copies s b w h ch tex plane
  rcases hc : GLInteropResource.ensureResource s b w h ch tex plane with ⟨ok1, s1, t1⟩
  rw [hc] at he hc0
  simp only [] at he hc0
  subst he
  simp only [hv]
  unfold GLInteropResource.map.body
  cases hcp : b.cuMemcpy2DAsync <;>
    simp [hm, ha, copies, copies_append, hc0, AutoCtxLock.acquire, AutoCtxLock.release,
      CUVIDAutoUnmapper.release]

theorem EGLInteropResource.bridge_result (s : EGLInteropResource) (d : D3DBackend)
    (surface : Handle) (tex : GLuint) (w h ch : Int) :
    (EGLInteropResource.map_IDirect3DSurface9 s d surface tex w h ch).1 = true := by
  unfold EGLInteropResource.map_IDirect3DSurface9
  cases hs : EGLInteropResource.SUCCEEDED d.StretchRect <;> simp

theorem EGLInteropResource.egl_map_copies_issued (s : EGLInteropResource) (b : CudaBackend)
    (d : D3DBackend) (picIndex : Int) (param : CUVIDPROCPARAMS) (tex : GLuint)
    (w h ch : Int) (plane : Fin 2) (devptr : CUdeviceptr) (pitch : Nat) (array : Handle)
    (he : (EGLInteropResource.ensureResource s b d w h ch tex).1 = true)
    (hv : b.cuvidMapVideoFrame = some (devptr, pitch))
    (hm : b.cuGraphicsMapResources = true)
    (ha : b.cuGraphicsSubResourceGetMappedArray = some array)
    (hcp : b.cuMemcpy2DAsync = true) :
    copies (EGLInteropResource.map s b d picIndex param tex w h ch plane).2.2 =
      [EGLInteropResource.map.cu2dY devptr pitch array w h,
       EGLInteropResource.map.cu2dUV
         (EGLInteropResource.map.cu2dY devptr pitch array w h) h ch] ∧
    (EGLInteropResource.map s b d picIndex param tex w h ch plane).1 =
      b.cuGraphicsUnmapResources := by
  unfold EGLInteropResource.map
  have hc0 := EGLInteropResource.egl_ensureResource_copies s b d w h ch tex
  rcases hc : EGLInteropResource.ensureResource s b d w h ch tex with ⟨ok1, s1, t1⟩
  rw [hc] at he hc0
  simp only [] at he hc0
  subst he
  simp only [hv]
  unfold EGLInteropResource.map.body
  have hb := EGLInteropResource.bridge_copies s1 d s1.surface9_nv12 tex w h ch
  have hr := EGLInteropResource.bridge_result s1 d s1.surface9_nv12 tex w h ch
  rcases hbr : EGLInteropResource.map_IDirect3DSurface9 s1 d s1.surface9_nv12 tex w h ch with
    ⟨ok2, t2⟩
  rw [hbr] at hb hr
  simp only [] at hb hr
  subst hr
  cases hu : b.cuGraphicsUnmapResources <;>
    simp [hm, ha, hcp, copies, copies_append, hc0, hb, AutoCtxLock.acquire,
      AutoCtxLock.release, CUVIDAutoUnmapper.release]

/-- C6: for all `w`, `h`, `paddedHeight >= 1` (C `int` values) with `h` even,
the chroma copy issued by `map` has source row offset `srcY = paddedHeight` and
copied height `h/2`.  In `GLInteropResource::map` it is the copy issued for
plane 1: the only copy of the call, issued as soon as the plane's resource is
registered, the decoder frame mapped, the resource mapped and its array
obtained.  In `EGLInteropResource::map` it is the second copy, issued as soon
as in addition the luma copy succeeded, and it also has destination row offset
`h`; the call then returns true exactly when the resource unmap succeeds. -/
theorem chroma_copy_geometry (w h ch : Int) (_hw : 1 ≤ w) (hh : 1 ≤ h) (hch : 1 ≤ ch)
    (_heven : h % 2 = 0) (hh31 : h < 2 ^ 31) (hch31 : ch < 2 ^ 31) :
    (∀ (s : InteropResource) (b : CudaBackend) (picIndex : Int) (param : CUVIDPROCPARAMS)
        (tex : GLuint),
      (∀ c ∈ copies (GLInteropResource.map s b picIndex param tex w h ch 1).2.2,
        (c.srcY : Int) = ch ∧ (c.Height : Int) = h / 2) ∧
      ((GLInteropResource.map s b picIndex param tex w h ch 1).1 = true →
        (copies (GLInteropResource.map s b picIndex param tex w h ch 1).2.2).length = 1) ∧
      (∀ devptr pitch array,
        (GLInteropResource.ensureResource s b w h ch tex 1).1 = true →
        b.cuvidMapVideoFrame = some (devptr, pitch) →
        b.cuGraphicsMapResources = true →
        b.cuGraphicsSubResourceGetMappedArray = some array →
        (∃ c, copies (GLInteropResource.map s b picIndex param tex w h ch 1).2.2 = [c] ∧
          c = GLInteropResource.map.cu2d devptr pitch array h ch 1 ∧
          (c.srcY : Int) = ch ∧ (c.Height : Int) = h / 2) ∧
        (GLInteropResource.map s b picIndex param tex w h ch 1).1 =
          (b.cuMemcpy2DAsync && b.cuGraphicsUnmapResources))) ∧
    (∀ (s : EGLInteropResource) (b : CudaBackend) (d : D3DBackend) (picIndex : Int)
        (param : CUVIDPROCPARAMS) (tex : GLuint) (plane : Fin 2),
      (∀ c, (copies (EGLInteropResource.map s b d picIndex param tex w h ch plane).2.2)[1]? =
          some c →
        (c.srcY : Int) = ch ∧ (c.Height : Int) = h / 2 ∧ (c.dstY : Int) = h) ∧
      ((EGLInteropResource.map s b d picIndex param tex w h ch plane).1 = true →
        (copies (EGLInteropResource.map s b d picIndex param tex w h ch plane).2.2).length
          = 2) ∧
      (∀ devptr pitch array,
        (EGLInteropResource.ensureResource s b d w h ch tex).1 = true →
        b.cuvidMapVideoFrame = some (devptr, pitch) →
        b.cuGraphicsMapResources = true →
        b.cuGraphicsSubResourceGetMappedArray = some array →
        b.cuMemcpy2DAsync = true →
        (∃ c1 c2,
          copies (EGLInteropResource.map s b d picIndex param tex w h ch plane).2.2 =
            [c1, c2] ∧
          c1 = EGLInteropResource.map.cu2dY devptr pitch array w h ∧
          c2 = EGLInteropResource.map.cu2dUV c1 h ch ∧
          (c2.srcY : Int) = ch ∧ (c2.Height : Int) = h / 2 ∧ (c2.dstY : Int) = h) ∧
        (EGLInteropResource.map s b d picIndex param tex w h ch plane).1 =
          b.cuGraphicsUnmapResources)) := by
  have hH := toSizeT_of_nonneg h (by omega) hh31
  have hC := toSizeT_of_nonneg ch (by omega) hch31
  have hgl : ∀ devptr pitch array,
      ((GLInteropResource.map.cu2d devptr pitch array h ch 1).srcY : Int) = ch ∧
      ((GLInteropResource.map.cu2d devptr pitch array h ch 1).Height : Int) = h / 2 := by
    intro devptr pitch array
    simp only [GLInteropResource.map.cu2d, if_true]
    refine ⟨hC, ?_⟩
    omega
  have hegl : ∀ c1 : CUDA_MEMCPY2D, (c1.Height : Int) = h →
      ((EGLInteropResource.map.cu2dUV c1 h ch).srcY : Int) = ch ∧
      ((EGLInteropResource.map.cu2dUV c1 h ch).Height : Int) = h / 2 ∧
      ((EGLInteropResource.map.cu2dUV c1 h ch).dstY : Int) = h := by
    intro c1 h1
    simp only [EGLInteropResource.map.cu2dUV]
    refine ⟨hC, ?_, hH⟩
    omega
  have hY : ∀ devptr pitch array,
      ((EGLInteropResource.map.cu2dY devptr pitch array w h).Height : Int) = h := by
    intro devptr pitch array
    exact hH
  constructor
  · intro s b picIndex param tex
    refine ⟨?_, ?_, ?_⟩
    · rcases GLInteropResource.map_copies s b picIndex param tex w h ch 1 with
        ⟨h1, _⟩ | ⟨devptr, pitch, array, _, h1⟩
      · rw [h1]
        simp
      · rw [h1]
        intro c hc
        rw [List.mem_singleton] at hc
        subst hc
        exact hgl devptr pitch array
    · rcases GLInteropResource.map_copies s b picIndex param tex w h ch 1 with
        ⟨_, h2⟩ | ⟨devptr, pitch, array, _, h1⟩
      · rw [h2]
        simp
      · rw [h1]
        exact fun _ => rfl
    · intro devptr pitch array he hv hm ha
      obtain ⟨g1, g2⟩ := GLInteropResource.gl_map_copies_issued s b picIndex param tex w h ch 1
        devptr pitch array he hv hm ha
      exact ⟨⟨_, g1, rfl, hgl devptr pitch array⟩, g2⟩
  · intro s b d picIndex param tex plane
    refine ⟨?_, ?_, ?_⟩
    · rcases EGLInteropResource.egl_map_copies s b d picIndex param tex w h ch plane with
        ⟨h1 | ⟨devptr, pitch, array, h1⟩, _⟩ | ⟨devptr, pitch, array, _, h1⟩
      · rw [h1]
        simp
      · rw [h1]
        simp
      · rw [h1]
        intro c hc
        simp only [List.getElem?_cons_succ, List.getElem?_cons_zero, Option.some.injEq] at hc
        subst hc
        exact hegl _ (hY devptr pitch array)
    · rcases EGLInteropResource.egl_map_copies s b d picIndex param tex w h ch plane with
        ⟨_, h2⟩ | ⟨devptr, pitch, array, _, h1⟩
      · rw [h2]
        simp
      · rw [h1]
        exact fun _ => rfl
    · intro devptr pitch array he hv hm ha hcp
      obtain ⟨g1, g2⟩ := EGLInteropResource.egl_map_copies_issued s b d picIndex param tex w h ch
        plane devptr pitch array he hv hm ha hcp
      exact ⟨⟨_, _, g1, rfl, rfl, hegl _ (hY devptr pitch array)⟩, g2⟩

/-- Instance of C6: a 1920 by 1080 frame with padded height 1088, every driver
call succeeding, mapped for plane 1 on a fresh direct-path object (one copy)
and for plane 0 on a fresh bridged-path object (luma copy, then the chroma
copy at source row 1088, 540 rows, destination row 1080; `map` returns
true). -/
theorem chroma_copy_geometry_witness :
    ((1 : Int) ≤ 1920 ∧ (1 : Int) ≤ 1080 ∧ (1 : Int) ≤ 1088 ∧ (1080 : Int) % 2 = 0 ∧
      (1080 : Int) < 2 ^ 31 ∧ (1088 : Int) < 2 ^ 31) ∧
    (copies (GLInteropResource.map (InteropResource.new 0 1 2) (CudaBackend.succeeding 2048)
      0 ⟨0⟩ 7 1920 1080 1088 1).2.2).length = 1 ∧
    ((EGLInteropResource.ensureResource (EGLInteropResource.new 0 1 2)
        (CudaBackend.succeeding 2048) D3DBackend.succeeding 1920 1080 1088 7).1 = true ∧
      (CudaBackend.succeeding 2048).cuvidMapVideoFrame = some (4096, 2048) ∧
      (CudaBackend.succeeding 2048).cuGraphicsMapResources = true ∧
      (CudaBackend.succeeding 2048).cuGraphicsSubResourceGetMappedArray = some 41 ∧
      (CudaBackend.succeeding 2048).cuMemcpy2DAsync = true) ∧
    ((∃ c1 c2,
        copies (EGLInteropResource.map (EGLInteropResource.new 0 1 2)
          (CudaBackend.succeeding 2048) D3DBackend.succeeding 0 ⟨0⟩ 7 1920 1080 1088 0).2.2 =
          [c1, c2] ∧
        c1 = EGLInteropResource.map.cu2dY 4096 2048 41 1920 1080 ∧
        c2 = EGLInteropResource.map.cu2dUV c1 1080 1088 ∧
        (c2.srcY : Int) = 1088 ∧ (c2.Height : Int) = 1080 / 2 ∧ (c2.dstY : Int) = 1080) ∧
      (EGLInteropResource.map (EGLInteropResource.new 0 1 2)
        (CudaBackend.succeeding 2048) D3DBackend.succeeding 0 ⟨0⟩ 7 1920 1080 1088 0).1 =
        (CudaBackend.succeeding 2048).cuGraphicsUnmapResources) :=
  ⟨by decide,
   ((chroma_copy_geometry 1920 1080 1088 (by decide) (by decide) (by decide) (by decide)
      (by decide) (by decide)).1 (InteropResource.new 0 1 2) (CudaBackend.succeeding 2048)
      0 ⟨0⟩ 7).2.1 (by decide),
   ⟨by decide, rfl, rfl, rfl, rfl⟩,
   ((chroma_copy_geometry 1920 1080 1088 (by decide) (by decide) (by decide) (by decide)
      (by decide) (by decide)).2 (EGLInteropResource.new 0 1 2) (CudaBackend.succeeding 2048)
      D3DBackend.succeeding 0 ⟨0⟩ 7 0).2.2 4096 2048 41 (by decide) rfl rfl rfl rfl⟩

/-- C7, as stated, fails: with `w = 1920` and a decoder-reported pitch of 2048
the successful `GLInteropResource::map` for plane 0 issues one copy whose
width in bytes is 2048, not 1920. -/
theorem GLInteropResource.map_copy_width_is_pitch :
    (GLInteropResource.map (InteropResource.new 0 1 2) (CudaBackend.succeeding 2048)
      0 ⟨0⟩ 7 1920 1080 1088 0).1 = true ∧
    (copies (GLInteropResource.map (InteropResource.new 0 1 2) (CudaBackend.succeeding 2048)
      0 ⟨0⟩ 7 1920 1080 1088 0).2.2).map (fun c => c.WidthInBytes) = [2048] ∧
    (2048 : Nat) ≠ 1920 := by
  decide

/-- C7, amended: on the direct path a successful `GLInteropResource::map`
issues exactly one asynchronous 2D copy, whose width in bytes is the
decoder-reported pitch; for plane 0 it has height `h` at source offset 0, for
plane 1 height `h/2` at source row offset `paddedHeight`.  Scenario: with
`w = 1920`, `h = 1080`, `paddedHeight = 1088`, texture 7 and pitch 1920, plane 0
then plane 1 on a fresh object: luma 1920 by 1080 at offset 0, chroma 1920 by
540 at row offset 1088, each plane registered once, its stream synchronized,
its resource unmapped, and `map` returns true for both planes. -/
theorem GLInteropResource.map_copy_region :
    (∀ (s : InteropResource) (b : CudaBackend) (picIndex : Int) (param : CUVIDPROCPARAMS)
        (tex : GLuint) (w h ch : Int) (plane : Fin 2),
      0 ≤ h → h < 2 ^ 31 → 0 ≤ ch → ch < 2 ^ 31 →
      (GLInteropResource.map s b picIndex param tex w h ch plane).1 = true →
      ∃ devptr pitch c, b.cuvidMapVideoFrame = some (devptr, pitch) ∧
        copies (GLInteropResource.map s b picIndex param tex w h ch plane).2.2 = [c] ∧
        c.WidthInBytes = pitch ∧ c.srcPitch = pitch ∧ c.srcDevice = devptr ∧
        c.srcXInBytes = 0 ∧
        (plane = 0 → c.srcY = 0 ∧ (c.Height : Int) = h) ∧
        (plane = 1 → (c.srcY : Int) = ch ∧ (c.Height : Int) = h / 2)) ∧
    GLInteropResource.map (InteropResource.new 0 1 2) (CudaBackend.succeeding 1920)
        0 ⟨0⟩ 7 1920 1080 1088 0 =
      (true,
        { dev := 0, ctx := 11, dec := 1, lock := 2,
          res0 := { texture := 7, w := 1920, h := 1080, H := 1088, cuRes := 31, stream := 21 },
          res1 := { texture := 0, w := 0, h := 0, H := 0, cuRes := 0, stream := 22 } },
        [Call.cuvidCtxLock 2, Call.cuCtxCreate 0, Call.cuStreamCreate, Call.cuStreamCreate,
         Call.cuCtxPopCurrent, Call.cuGraphicsGLRegisterImage 7,
         Call.cuvidMapVideoFrame 1 0 ⟨0⟩, Call.cuGraphicsMapResources 31,
         Call.cuGraphicsSubResourceGetMappedArray 31,
         Call.cuMemcpy2DAsync
           { CUDA_MEMCPY2D.zero with
             srcDevice := 4096, srcMemoryType := CU_MEMORYTYPE_DEVICE, srcPitch := 1920,
             dstArray := 41, dstMemoryType := CU_MEMORYTYPE_ARRAY, dstPitch := 1920,
             WidthInBytes := 1920, Height := 1080 } 21,
         Call.cuStreamSynchronize 21, Call.cuGraphicsUnmapResources 31,
         Call.cuvidUnmapVideoFrame 1 4096, Call.cuvidCtxUnlock 2]) ∧
    GLInteropResource.map
        (GLInteropResource.map (InteropResource.new 0 1 2) (CudaBackend.succeeding 1920)
          0 ⟨0⟩ 7 1920 1080 1088 0).2.1
        (CudaBackend.succeedingNext 1920) 0 ⟨0⟩ 7 1920 1080 1088 1 =
      (true,
        { dev := 0, ctx := 11, dec := 1, lock := 2,
          res0 := { texture := 7, w := 1920, h := 1080, H := 1088, cuRes := 31, stream := 21 },
          res1 := { texture := 7, w := 1920, h := 1080, H := 1088, cuRes := 32, stream := 22 } },
        [Call.cuvidCtxLock 2, Call.cuGraphicsGLRegisterImage 7,
         Call.cuvidMapVideoFrame 1 0 ⟨0⟩, Call.cuGraphicsMapResources 32,
         Call.cuGraphicsSubResourceGetMappedArray 32,
         Call.cuMemcpy2DAsync
           { CUDA_MEMCPY2D.zero with
             srcDevice := 4096, srcMemoryType := CU_MEMORYTYPE_DEVICE, srcPitch := 1920,
             dstArray := 41, dstMemoryType := CU_MEMORYTYPE_ARRAY, dstPitch := 1920,
             WidthInBytes := 1920, Height := 540, srcY := 1088 } 22,
         Call.cuStreamSynchronize 22, Call.cuGraphicsUnmapResources 32,
         Call.cuvidUnmapVideoFrame 1 4096, Call.cuvidCtxUnlock 2]) := by
  refine ⟨?_, by decide, by decide⟩
  intro s b picIndex param tex w h ch plane hh0 hh31 hch0 hch31 hok
  have hH := toSizeT_of_nonneg h hh0 hh31
  have hC := toSizeT_of_nonneg ch hch0 hch31
  rcases GLInteropResource.map_copies s b picIndex param tex w h ch plane with
    ⟨_, h2⟩ | ⟨devptr, pitch, array, hv, h1⟩
  · rw [h2] at hok
    cases hok
  · obtain ⟨f1, f2, f3, f4, f5, f6⟩ :=
      GLInteropResource.cu2d_fields devptr pitch array h ch plane
    refine ⟨devptr, pitch, _, hv, h1, f1, f2, f3, f4, ?_, ?_⟩
    · intro hp
      have hp1 : ¬ plane = 1 := by rw [hp]; decide
      rw [f5, f6, if_neg hp1, if_neg hp1]
      exact ⟨rfl, hH⟩
    · intro hp
      rw [f5, f6, if_pos hp, if_pos hp]
      refine ⟨hC, ?_⟩
      omega

/-- Instance of amended C7: pitch 2048 for a 1920 wide frame, plane 1 of a
fresh object. -/
theorem GLInteropResource.map_copy_region_witness :
    ((0 : Int) ≤ 1080 ∧ (1080 : Int) < 2 ^ 31 ∧ (0 : Int) ≤ 1088 ∧ (1088 : Int) < 2 ^ 31 ∧
      (GLInteropResource.map (InteropResource.new 0 1 2) (CudaBackend.succeeding 2048)
        0 ⟨0⟩ 7 1920 1080 1088 1).1 = true) ∧
    ∃ devptr pitch c, (CudaBackend.succeeding 2048).cuvidMapVideoFrame = some (devptr, pitch) ∧
      copies (GLInteropResource.map (InteropResource.new 0 1 2) (CudaBackend.succeeding 2048)
        0 ⟨0⟩ 7 1920 1080 1088 1).2.2 = [c] ∧
      c.WidthInBytes = pitch ∧ c.srcPitch = pitch ∧ c.srcDevice = devptr ∧
      c.srcXInBytes = 0 ∧
      ((1 : Fin 2) = 0 → c.srcY = 0 ∧ (c.Height : Int) = 1080) ∧
      ((1 : Fin 2) = 1 → (c.srcY : Int) = 1088 ∧ (c.Height : Int) = 1080 / 2) :=
  ⟨by decide,
   GLInteropResource.map_copy_region.1 (InteropResource.new 0 1 2)
     (CudaBackend.succeeding 2048) 0 ⟨0⟩ 7 1920 1080 1088 1
     (by decide) (by decide) (by decide) (by decide) (by decide)⟩

/-- C8, the code at a failing input: on a fresh object every driver call
succeeds except the asynchronous copy.  `GLInteropResource::map` for plane 0
returns false after `cuGraphicsMapResources` on resource 31 and issues no
`cuGraphicsUnmapResources`; the following `map` on the same plane, with every
call succeeding, issues `cuGraphicsMapResources` on resource 31 again. -/
theorem GLInteropResource.map_failed_copy_leaves_resource_mapped :
    GLInteropResource.map (InteropResource.new 0 1 2) CudaBackend.copyFails
        0 ⟨0⟩ 7 1920 1080 1088 0 =
      (false,
        { dev := 0, ctx := 11, dec := 1, lock := 2,
          res0 := { texture := 7, w := 1920, h := 1080, H := 1088, cuRes := 31, stream := 21 },
          res1 := { texture := 0, w := 0, h := 0, H := 0, cuRes := 0, stream := 22 } },
        [Call.cuvidCtxLock 2, Call.cuCtxCreate 0, Call.cuStreamCreate, Call.cuStreamCreate,
         Call.cuCtxPopCurrent, Call.cuGraphicsGLRegisterImage 7,
         Call.cuvidMapVideoFrame 1 0 ⟨0⟩, Call.cuGraphicsMapResources 31,
         Call.cuGraphicsSubResourceGetMappedArray 31,
         Call.cuMemcpy2DAsync
           { CUDA_MEMCPY2D.zero with
             srcDevice := 4096, srcMemoryType := CU_MEMORYTYPE_DEVICE, srcPitch := 2048,
             dstArray := 41, dstMemoryType := CU_MEMORYTYPE_ARRAY, dstPitch := 2048,
             WidthInBytes := 2048, Height := 1080 } 21,
         Call.cuvidUnmapVideoFrame 1 4096, Call.cuvidCtxUnlock 2]) ∧
    Call.cuGraphicsUnmapResources 31 ∉
      (GLInteropResource.map (InteropResource.new 0 1 2) CudaBackend.copyFails
        0 ⟨0⟩ 7 1920 1080 1088 0).2.2 ∧
    (GLInteropResource.map
        (GLInteropResource.map (InteropResource.new 0 1 2) CudaBackend.copyFails
          0 ⟨0⟩ 7 1920 1080 1088 0).2.1
        (CudaBackend.succeeding 2048) 0 ⟨0⟩ 7 1920 1080 1088 0).2.2.take 3 =
      [Call.cuvidCtxLock 2, Call.cuvidMapVideoFrame 1 0 ⟨0⟩,
       Call.cuGraphicsMapResources 31] := by
  decide

/-- C9, the code when the blit fails: the bridge step logs a warning, skips the
flush and the bind to the presentation texture, and returns true. -/
theorem EGLInteropResource.bridge_returns_true_on_failed_blit (s : EGLInteropResource)
    (d : D3DBackend) (surface : Handle) (tex : GLuint) (w h ch : Int)
    (hfail : SUCCEEDED d.StretchRect = false) :
    EGLInteropResource.map_IDirect3DSurface9 s d surface tex w h ch =
      (true, [Call.GetDesc surface, Call.glBindTexture tex,
        Call.StretchRect s.device9 surface w h s.surface9, Call.qWarning,
        Call.glBindTexture 0]) := by
  unfold EGLInteropResource.map_IDirect3DSurface9
  simp [hfail]

/-- Instance of C9's failing input: `StretchRect` returns
`D3DERR_INVALIDCALL`. -/
theorem EGLInteropResource.bridge_returns_true_on_failed_blit_witness :
    SUCCEEDED D3DBackend.blitFails.StretchRect = false ∧
    EGLInteropResource.map_IDirect3DSurface9 EGLInteropResource.ready D3DBackend.blitFails
        51 7 1920 1080 1088 =
      (true, [Call.GetDesc 51, Call.glBindTexture 7, Call.StretchRect 61 51 1920 1080 52,
        Call.qWarning, Call.glBindTexture 0]) :=
  ⟨by decide,
   EGLInteropResource.bridge_returns_true_on_failed_blit EGLInteropResource.ready
     D3DBackend.blitFails 51 7 1920 1080 1088 (by decide)⟩

/-! ## The bridge step -/

theorem EGLInteropResource.poll_never (q : Handle) (g : Nat → Int)
    (hg : ∀ k, g k = FALSE) :
    ∀ n k, k < 10 → 10 - k ≤ n → polls (EGLInteropResource.map.poll q g k) = 10 - k := by
  intro n
  induction n with
  | zero =>
    intro k hk hn
    omega
  | succ n ih =>
    intro k hk hn
    rw [EGLInteropResource.map.poll]
    by_cases hk1 : k + 1 < 10
    · simp only [hg k, hk1, if_true, polls]
      rw [ih (k + 1) hk1 (by omega)]
      omega
    · simp only [hg k, hk1, if_true, if_false, polls]
      omega

/-- C10: in the bridge step, for every behaviour of the flush query, the poll
loop ends after at most 10 `GetData` polls (the loop is a total function of
the query's answers); when the blit succeeded the step then binds the bridge
surface's image into the presentation texture (`eglBindTexImage`, after the
polls) and returns true.  A query that answers `FALSE` at every poll is polled
exactly 10 times. -/
theorem EGLInteropResource.bridge_poll_bounded (s : EGLInteropResource) (d : D3DBackend)
    (surface : Handle) (tex : GLuint) (w h ch : Int) :
    polls (EGLInteropResource.map_IDirect3DSurface9 s d surface tex w h ch).2 ≤ 10 ∧
    (SUCCEEDED d.StretchRect = true →
      (EGLInteropResource.map_IDirect3DSurface9 s d surface tex w h ch).1 = true ∧
      ∃ tq, polls tq ≤ 10 ∧
        (EGLInteropResource.map_IDirect3DSurface9 s d surface tex w h ch).2 =
          [Call.GetDesc surface, Call.glBindTexture tex,
           Call.StretchRect s.device9 surface w h s.surface9] ++ tq ++
          [Call.eglBindTexImage s.egl.dpy s.egl.surface, Call.glBindTexture 0]) ∧
    (SUCCEEDED d.StretchRect = true → s.query9 ≠ 0 → (∀ k, d.GetData k = FALSE) →
      polls (EGLInteropResource.map_IDirect3DSurface9 s d surface tex w h ch).2 = 10) := by
  have hp := EGLInteropResource.poll_polls s.query9 d.GetData 10 0 (by omega)
  have hp10 : polls (EGLInteropResource.map.poll s.query9 d.GetData 0) ≤ 10 := by
    simpa using hp
  have htq : polls (if s.query9 ≠ 0 then
      Call.Issue s.query9 :: EGLInteropResource.map.poll s.query9 d.GetData 0
      else []) ≤ 10 := by
    by_cases hq : s.query9 = 0
    · simp [hq, polls]
    · simp [hq, polls, hp10]
  refine ⟨?_, ?_, ?_⟩
  · unfold EGLInteropResource.map_IDirect3DSurface9
    cases hs : SUCCEEDED d.StretchRect
    · simp [polls]
    · simp only [if_true, polls_append]
      simp only [polls]
      omega
  · intro hs
    unfold EGLInteropResource.map_IDirect3DSurface9
    rw [if_pos hs]
    exact ⟨rfl, _, htq, rfl⟩
  · intro hs hq hg
    unfold EGLInteropResource.map_IDirect3DSurface9
    simp only [hs, if_true, polls_append, hq, ne_eq, not_false_eq_true]
    simp only [polls]
    rw [EGLInteropResource.poll_never s.query9 d.GetData hg 10 0 (by omega) (by omega)]

/-- Instance of C10: the blit succeeds and the flush query never reports
completion; the step polls 10 times, binds and returns true. -/
theorem EGLInteropResource.bridge_poll_bounded_witness :
    (SUCCEEDED D3DBackend.neverFlushed.StretchRect = true ∧
      EGLInteropResource.ready.query9 ≠ 0 ∧ ∀ k, D3DBackend.neverFlushed.GetData k = FALSE) ∧
    polls (EGLInteropResource.map_IDirect3DSurface9 EGLInteropResource.ready
      D3DBackend.neverFlushed 51 7 1920 1080 1088).2 = 10 ∧
    (EGLInteropResource.map_IDirect3DSurface9 EGLInteropResource.ready
      D3DBackend.neverFlushed 51 7 1920 1080 1088).1 = true :=
  ⟨⟨by decide, by decide, fun _ => rfl⟩,
   (EGLInteropResource.bridge_poll_bounded EGLInteropResource.ready
      D3DBackend.neverFlushed 51 7 1920 1080 1088).2.2 (by decide) (by decide)
      (fun _ => rfl),
   ((EGLInteropResource.bridge_poll_bounded EGLInteropResource.ready
      D3DBackend.neverFlushed 51 7 1920 1080 1088).2.1 (by decide)).1⟩

/-! ## Teardown -/

/-- C11: teardown of `InteropResource`, from every state of the two plane
slots: the unregister calls are exactly those of the planes (0 then 1) whose
external resource handle is non-null, the stream-destroy calls exactly those
of the planes whose stream is non-null, the trace consists of the unregister
calls followed by the stream-destroy calls and nothing else, no call is issued
on a null handle, and no context-destroy is issued. -/
theorem InteropResource.destructor_teardown (s : InteropResource) :
    unregistered s.destructor = [s.res0.cuRes, s.res1.cuRes].filter (fun r => decide (r ≠ 0)) ∧
    destroyedStreams s.destructor =
      [s.res0.stream, s.res1.stream].filter (fun st => decide (st ≠ 0)) ∧
    s.destructor =
      (unregistered s.destructor).map Call.cuGraphicsUnregisterResource ++
      (destroyedStreams s.destructor).map Call.cuStreamDestroy ∧
    Call.cuGraphicsUnregisterResource 0 ∉ s.destructor ∧
    Call.cuStreamDestroy 0 ∉ s.destructor ∧
    ∀ c, Call.cuCtxDestroy c ∉ s.destructor := by
  unfold InteropResource.destructor
  by_cases h0 : s.res0.cuRes = 0 <;> by_cases h1 : s.res1.cuRes = 0 <;>
    by_cases h2 : s.res0.stream = 0 <;> by_cases h3 : s.res1.stream = 0 <;>
    simp [h0, h1, h2, h3, unregistered, destroyedStreams, List.filter_cons, Ne.symm]

/-! ## `InteropResource::mapToHost` -/

theorem unmappedFrames_append (a b : List Call) :
    unmappedFrames (a ++ b) = unmappedFrames a ++ unmappedFrames b := by
  induction a with
  | nil => rfl
  | cons x xs ih => cases x <;> simp [unmappedFrames, ih]

theorem InteropResource.mapToHost_body_unmaps (m : HostBackend)
    (Format_NV12 format : VideoFormat) (handle : Nat) (devptr : CUdeviceptr) (pitch : Nat)
    (width height coded_height : Int) :
    unmappedFrames (InteropResource.mapToHost.body m Format_NV12 format handle devptr pitch
      width height coded_height).2.2 = [] := by
  unfold InteropResource.mapToHost.body
  cases ha : m.cuMemAllocHost <;> cases hc : m.cuMemcpyDtoH <;> simp [unmappedFrames]

/-- C12: in `InteropResource::mapToHost`, for every driver behaviour: if the
decoder's map-frame call fails the result is null and no decoder unmap is
issued; if it succeeds, exactly one decoder unmap, of the returned device
pointer, is issued, as the last call before the context lock is released and
the function returns, whether the call then succeeds (result `handle`) or
fails at host allocation or at the device-to-host copy (result null). -/
theorem InteropResource.mapToHost_unmaps_once (s : InteropResource) (b : CudaBackend)
    (m : HostBackend) (Format_NV12 format : VideoFormat) (handle : Nat) (picIndex : Int)
    (param : CUVIDPROCPARAMS) (width height coded_height : Int) :
    (b.cuvidMapVideoFrame = none →
      (s.mapToHost b m Format_NV12 format handle picIndex param width height
        coded_height).1 = 0 ∧
      unmappedFrames (s.mapToHost b m Format_NV12 format handle picIndex param width height
        coded_height).2.2 = []) ∧
    (∀ devptr pitch, b.cuvidMapVideoFrame = some (devptr, pitch) →
      unmappedFrames (s.mapToHost b m Format_NV12 format handle picIndex param width height
        coded_height).2.2 = [(s.dec, devptr)] ∧
      (∃ t, (s.mapToHost b m Format_NV12 format handle picIndex param width height
          coded_height).2.2 =
        t ++ [Call.cuvidUnmapVideoFrame s.dec devptr, Call.cuvidCtxUnlock s.lock]) ∧
      (m.cuMemAllocHost = none →
        (s.mapToHost b m Format_NV12 format handle picIndex param width height
          coded_height).1 = 0) ∧
      (m.cuMemcpyDtoH = false →
        (s.mapToHost b m Format_NV12 format handle picIndex param width height
          coded_height).1 = 0) ∧
      (m.cuMemAllocHost ≠ none → m.cuMemcpyDtoH = true →
        (s.mapToHost b m Format_NV12 format handle picIndex param width height
          coded_height).1 = handle)) := by
  constructor
  · intro hv
    unfold InteropResource.mapToHost
    simp [hv, unmappedFrames, AutoCtxLock.acquire, AutoCtxLock.release]
  · intro devptr pitch hv
    have hb := InteropResource.mapToHost_body_unmaps m Format_NV12 format handle devptr pitch
      width height coded_height
    unfold InteropResource.mapToHost
    rw [hv]
    simp only []
    refine ⟨?_, ?_, ?_, ?_, ?_⟩
    · simp [unmappedFrames_append, unmappedFrames, hb, AutoCtxLock.acquire,
        AutoCtxLock.release, CUVIDAutoUnmapper.release]
    · exact ⟨AutoCtxLock.acquire s.lock ++ [Call.cuvidMapVideoFrame s.dec picIndex param] ++
        (InteropResource.mapToHost.body m Format_NV12 format handle devptr pitch
          width height coded_height).2.2,
        by simp [AutoCtxLock.release, CUVIDAutoUnmapper.release]⟩
    · intro ha
      unfold InteropResource.mapToHost.body
      simp [ha]
    · intro hc
      unfold InteropResource.mapToHost.body
      cases ha : m.cuMemAllocHost <;> simp [hc]
    · intro ha hc
      unfold InteropResource.mapToHost.body
      cases ha2 : m.cuMemAllocHost with
      | none => exact absurd ha2 ha
      | some host => simp [hc]

/-- Instance of C12: the decoder maps the frame at device address 4096, the
host allocation succeeds and the device-to-host copy fails. -/
theorem InteropResource.mapToHost_unmaps_once_witness :
    (CudaBackend.succeeding 2048).cuvidMapVideoFrame = some (4096, 2048) ∧
    unmappedFrames ((InteropResource.new 0 1 2).mapToHost (CudaBackend.succeeding 2048)
      HostBackend.copyFails ⟨1⟩ ⟨1⟩ 16 0 ⟨0⟩ 1920 1080 1088).2.2 = [(1, 4096)] ∧
    ((InteropResource.new 0 1 2).mapToHost (CudaBackend.succeeding 2048)
      HostBackend.copyFails ⟨1⟩ ⟨1⟩ 16 0 ⟨0⟩ 1920 1080 1088).1 = 0 :=
  ⟨rfl,
   ((InteropResource.mapToHost_unmaps_once (InteropResource.new 0 1 2)
      (CudaBackend.succeeding 2048) HostBackend.copyFails ⟨1⟩ ⟨1⟩ 16 0 ⟨0⟩ 1920 1080
      1088).2 4096 2048 rfl).1,
   ((InteropResource.mapToHost_unmaps_once (InteropResource.new 0 1 2)
      (CudaBackend.succeeding 2048) HostBackend.copyFails ⟨1⟩ ⟨1⟩ 16 0 ⟨0⟩ 1920 1080
      1088).2 4096 2048 rfl).2.2.2.1 rfl⟩

/-- C14, the code at a failing input: the decoder maps the frame (pitch 2048,
padded height 1088), `cuMemAllocHost` hands out the buffer at 8192 and
`cuMemcpyDtoH` fails.  `mapToHost` returns null without `cuMemFreeHost`; when
the copy succeeds the same buffer is freed before the return. -/
theorem InteropResource.mapToHost_failed_copy_keeps_host_buffer :
    (InteropResource.new 0 1 2).mapToHost (CudaBackend.succeeding 2048)
        HostBackend.copyFails ⟨1⟩ ⟨1⟩ 16 0 ⟨0⟩ 1920 1080 1088 =
      (0, none,
        [Call.cuvidCtxLock 2, Call.cuvidMapVideoFrame 1 0 ⟨0⟩, Call.cuMemAllocHost 3342336,
         Call.cuMemcpyDtoH 8192 4096 3342336, Call.cuvidUnmapVideoFrame 1 4096,
         Call.cuvidCtxUnlock 2]) ∧
    Call.cuMemFreeHost 8192 ∉
      ((InteropResource.new 0 1 2).mapToHost (CudaBackend.succeeding 2048)
        HostBackend.copyFails ⟨1⟩ ⟨1⟩ 16 0 ⟨0⟩ 1920 1080 1088).2.2 ∧
    (InteropResource.new 0 1 2).mapToHost (CudaBackend.succeeding 2048)
        HostBackend.succeeding ⟨1⟩ ⟨1⟩ 16 0 ⟨0⟩ 1920 1080 1088 =
      (16,
        some { width := 1920, height := 1080, format := ⟨1⟩, bits0 := 8192,
               bits1 := 8192 + 2228224, bytesPerLine0 := 2048, bytesPerLine1 := 2048,
               converted := false },
        [Call.cuvidCtxLock 2, Call.cuvidMapVideoFrame 1 0 ⟨0⟩, Call.cuMemAllocHost 3342336,
         Call.cuMemcpyDtoH 8192 4096 3342336, Call.cuMemFreeHost 8192,
         Call.cuvidUnmapVideoFrame 1 4096, Call.cuvidCtxUnlock 2]) := by
  decide

/-! ## `EGLInteropResource::ensureD3D9CUDA` -/

theorem intermediateTextures_append (a b : List Call) :
    intermediateTextures (a ++ b) = intermediateTextures a ++ intermediateTextures b := by
  induction a with
  | nil => rfl
  | cons x xs ih =>
    cases x with
    | CreateTexture dev w h rt al => cases rt <;> simp [intermediateTextures, ih]
    | _ => simp [intermediateTextures, ih]

namespace EGLInteropResource

theorem andThen_keeps (s0 : EGLInteropResource) (x : Bool × EGLInteropResource × List Call)
    (f : EGLInteropResource → Bool × EGLInteropResource × List Call)
    (hx : KeepsIntermediate s0 x)
    (hf : ∀ s, s.texture9_nv12 = s0.texture9_nv12 → s.surface9_nv12 = s0.surface9_nv12 →
      KeepsIntermediate s0 (f s)) :
    KeepsIntermediate s0 (andThen x f id) := by
  obtain ⟨ok, s, t⟩ := x
  obtain ⟨h1, h2, h3⟩ := hx
  simp only [] at h1 h2 h3
  unfold andThen
  cases ok
  · exact ⟨h1, h2, h3⟩
  · obtain ⟨g1, g2, g3⟩ := hf s h1 h2
    refine ⟨g1, g2, ?_⟩
    simp only []
    rw [intermediateTextures_append, h3, g3]
    rfl

theorem ensureD3DDevice_keeps (s : EGLInteropResource) (d : D3DBackend) :
    KeepsIntermediate s (ensureD3DDevice s d) := by
  unfold KeepsIntermediate ensureD3DDevice
  by_cases h1 : s.device9 = 0 <;> by_cases h2 : s.dll9 = 0 <;>
    by_cases h3 : d.LoadLibrary = 0 <;> by_cases h4 : d.CreateDevice9Ex.1 = 0 <;>
    by_cases h5 : d.CreateDevice9.1 = 0 <;> cases h6 : d.CreateQuery <;>
    simp [h1, h2, h3, h4, h5, intermediateTextures, intermediateTextures_append]

theorem createContext_keeps (s : EGLInteropResource) (b : CudaBackend) (d : D3DBackend) :
    KeepsIntermediate s (ensureD3D9CUDA.createContext s b d) := by
  unfold ensureD3D9CUDA.createContext
  by_cases h : s.ctx = 0
  · simp only [h, if_true]
    apply andThen_keeps s _ _ (ensureD3DDevice_keeps s d)
    intro s1 e1 e2
    unfold KeepsIntermediate
    cases hc : b.cuD3D9CtxCreate <;> cases h0 : b.cuStreamCreate0 <;>
      cases h1 : b.cuStreamCreate1 <;> cases hp : b.cuCtxPopCurrent <;>
      simp [intermediateTextures, e1, e2]
  · unfold KeepsIntermediate
    simp [h, intermediateTextures]

theorem unregisterStale_keeps (s0 s : EGLInteropResource) (b : CudaBackend)
    (e1 : s.texture9_nv12 = s0.texture9_nv12) (e2 : s.surface9_nv12 = s0.surface9_nv12) :
    KeepsIntermediate s0 (ensureD3D9CUDA.unregisterStale s b) := by
  unfold KeepsIntermediate ensureD3D9CUDA.unregisterStale
  by_cases h : s.res0.cuRes = 0 <;> cases hu : b.cuGraphicsUnregisterResource <;>
    simp [h, intermediateTextures, e1, e2]

theorem createTexture_keeps (s0 s : EGLInteropResource) (d : D3DBackend) (w h : Int)
    (hne : s0.surface9_nv12 ≠ 0)
    (e1 : s.texture9_nv12 = s0.texture9_nv12) (e2 : s.surface9_nv12 = s0.surface9_nv12) :
    KeepsIntermediate s0 (ensureD3D9CUDA.createTexture s d w h) := by
  unfold KeepsIntermediate ensureD3D9CUDA.createTexture
  have hs : ¬ s.surface9_nv12 = 0 := by rw [e2]; exact hne
  rw [if_neg hs]
  exact ⟨e1, e2, rfl⟩

theorem registerResource_keeps (s0 s : EGLInteropResource) (b : CudaBackend)
    (e1 : s.texture9_nv12 = s0.texture9_nv12) (e2 : s.surface9_nv12 = s0.surface9_nv12) :
    KeepsIntermediate s0 (ensureD3D9CUDA.registerResource s b) := by
  unfold KeepsIntermediate ensureD3D9CUDA.registerResource
  cases h : b.cuGraphicsD3D9RegisterResource <;> simp [intermediateTextures, e1, e2]

theorem ensureD3D9CUDA_keeps (s : EGLInteropResource) (b : CudaBackend) (d : D3DBackend)
    (w h ch : Int) (hne : s.surface9_nv12 ≠ 0) :
    KeepsIntermediate s (ensureD3D9CUDA s b d w h ch) := by
  unfold ensureD3D9CUDA
  simp only []
  split
  · exact ⟨rfl, rfl, rfl⟩
  · apply andThen_keeps s _ _ (createContext_keeps s b d)
    intro s1 a1 a2
    apply andThen_keeps s _ _ (unregisterStale_keeps s s1 b a1 a2)
    intro s2 b1 b2
    apply andThen_keeps s _ _ (createTexture_keeps s s2 d w h hne b1 b2)
    intro s3 c1 c2
    exact registerResource_keeps s s3 b c1 c2

end EGLInteropResource

/-- C13, the code at a failing input.  Once the intermediate surface exists,
no call of `ensureD3D9CUDA`, whatever its dimensions and the driver's answers,
creates an intermediate texture or changes the texture and surface handles.
Scenario, every driver call succeeding: the first call, for 1920 by 1080
(padded 1088), creates the 1920 by 1620 texture 50 and registers it; the next
call, for 1280 by 720, returns true after unregistering and registering the
same texture 50 again, with no `CreateTexture`: the registered surface is
still 1920 by 1620 and not 1280 by 1080.  Through `ensureResource` the same
happens, while `ensureD3D9EGL` does release and re-create its render-target
texture at 1280 by 720. -/
theorem EGLInteropResource.ensureD3D9CUDA_keeps_stale_surface :
    (∀ (s : EGLInteropResource) (b : CudaBackend) (d : D3DBackend) (w h ch : Int),
      s.surface9_nv12 ≠ 0 →
      (EGLInteropResource.ensureD3D9CUDA s b d w h ch).2.1.texture9_nv12 = s.texture9_nv12 ∧
      (EGLInteropResource.ensureD3D9CUDA s b d w h ch).2.1.surface9_nv12 = s.surface9_nv12 ∧
      intermediateTextures (EGLInteropResource.ensureD3D9CUDA s b d w h ch).2.2 = []) ∧
    (EGLInteropResource.ensureD3D9CUDA (EGLInteropResource.new 0 1 2)
        (CudaBackend.succeeding 2048) D3DBackend.succeeding 1920 1080 1088).1 = true ∧
    (EGLInteropResource.ensureD3D9CUDA (EGLInteropResource.new 0 1 2)
        (CudaBackend.succeeding 2048) D3DBackend.succeeding 1920 1080 1088).2.2 =
      [Call.LoadLibrary, Call.CreateDevice9Ex 60, Call.CreateQuery 61, Call.Issue 71,
       Call.cuD3D9CtxCreate 61, Call.cuStreamCreate, Call.cuStreamCreate,
       Call.cuCtxPopCurrent, Call.CreateTexture 61 1920 1620 false false,
       Call.GetSurfaceLevel 50, Call.cuGraphicsD3D9RegisterResource 50] ∧
    EGLInteropResource.ensureD3D9CUDA
        (EGLInteropResource.ensureD3D9CUDA (EGLInteropResource.new 0 1 2)
          (CudaBackend.succeeding 2048) D3DBackend.succeeding 1920 1080 1088).2.1
        (CudaBackend.succeeding 2048) D3DBackend.succeeding 1280 720 720 =
      (true,
        (EGLInteropResource.ensureD3D9CUDA (EGLInteropResource.new 0 1 2)
          (CudaBackend.succeeding 2048) D3DBackend.succeeding 1920 1080 1088).2.1,
        [Call.cuGraphicsUnregisterResource 31, Call.cuGraphicsD3D9RegisterResource 50]) ∧
    ((1280 : Int), Int.tdiv (720 * 3) 2) ≠ (1920, 1620) ∧
    EGLInteropResource.ensureResource EGLInteropResource.ready
        (CudaBackend.succeeding 2048) D3DBackend.succeeding 1280 720 720 7 =
      (true,
        { EGLInteropResource.ready with
          res0 := { texture := 7, w := 1280, h := 720, H := 720, cuRes := 31,
                    stream := 21 } },
        [Call.cuGraphicsUnregisterResource 31, Call.cuGraphicsD3D9RegisterResource 50,
         Call.eglGetCurrentDisplay, Call.eglQueryString 81, Call.eglQueryString 81,
         Call.eglQueryContext 81, Call.eglGetConfigs 81, Call.eglGetConfigs 81,
         Call.eglGetConfigAttrib 81 84, Call.eglGetConfigAttrib 81 83,
         Call.eglQueryString 81, Call.eglGetConfigAttrib 81 83,
         Call.Release 52, Call.Release 53, Call.CreateTexture 61 1280 720 true true,
         Call.GetSurfaceLevel 53,
         Call.eglCreatePbufferFromClientBuffer 81 90 83 1280 720 true]) := by
  refine ⟨?_, by decide, by decide, by decide, by decide, by decide⟩
  intro s b d w h ch hne
  exact EGLInteropResource.ensureD3D9CUDA_keeps s b d w h ch hne

end cuda
end QtAV
